import Mathlib

/-! Verification development for the solana-escrow program: a shallow
embedding of its instruction codec (src/instruction.rs), escrow record
codec (src/state.rs), account guard helpers (src/utils.rs) and the four
state-transition handlers (src/processor.rs), together with theorems
checking the specification's claims about them. -/

set_option maxHeartbeats 1000000
set_option maxRecDepth 100000

/-- Modelled from the spec: the program's error enum (src/error.rs is not
among the provided sources) together with the runtime error codes the
handlers propagate, taken from the spec's error taxonomy (section 7). -/
inductive ProgErr where
  | InvalidInstruction
  | InvalidAccountData
  | ExpectedAmountMismatch
  | FeeOverflow
  | AmountOverflow
  | AccountAlreadyInitialized
  | AccountAlreadySettled
  | AccountAlreadyCanceled
  | AccountNotSettledOrCanceled
  | AccountNotInitialized
  | InvalidAuthorityId
  | MissingRequiredSignature
  | IllegalOwner
  | InvalidArgument
  | AccountNotRentExempt
  | UninitializedAccount
  | NotEnoughAccountKeys
deriving DecidableEq, Repr

/-- An address on the ledger, a 32-byte public key, embedded as a byte list. -/
abbrev Pubkey : Type := List Nat

/-- Largest value of a 64-bit unsigned machine integer. -/
def u64Max : Nat := 18446744073709551615

/-- Checked (non-wrapping) subtraction of u64 values: fails on underflow. -/
def checkedSub (a b : Nat) : Option Nat :=
  if b ≤ a then some (a - b) else none

/-- Checked (non-wrapping) addition of u64 values: fails on overflow past u64Max. -/
def checkedAdd (a b : Nat) : Option Nat :=
  if a + b ≤ u64Max then some (a + b) else none

/-- Converts an Option to an Except, the embedding of Rust ok_or. -/
def ok_or (o : Option α) (e : ProgErr) : Except ProgErr α :=
  match o with
  | some a => Except.ok a
  | none => Except.error e

/-- Little-endian byte decoding of an unsigned integer (u64 from_le_bytes). -/
def u64FromLeBytes : List Nat → Nat
  | [] => 0
  | b :: rest => b + 256 * u64FromLeBytes rest

/-- Little-endian 8-byte encoding of a u64 (u64 to_le_bytes). -/
def u64ToLeBytes (n : Nat) : List Nat :=
  [n % 256, n / 256 % 256, n / 65536 % 256, n / 16777216 % 256,
   n / 4294967296 % 256, n / 1099511627776 % 256,
   n / 281474976710656 % 256, n / 72057594037927936 % 256]

theorem u64FromLeBytes_toLeBytes (n : Nat) (h : n ≤ u64Max) :
    u64FromLeBytes (u64ToLeBytes n) = n := by
  simp only [u64ToLeBytes, u64FromLeBytes, u64Max] at *
  omega

theorem u64ToLeBytes_fromLeBytes (bs : List Nat) (hlen : bs.length = 8)
    (hb : ∀ b ∈ bs, b < 256) :
    u64ToLeBytes (u64FromLeBytes bs) = bs := by
  match bs, hlen with
  | [b0, b1, b2, b3, b4, b5, b6, b7], _ =>
    simp only [List.mem_cons, List.not_mem_nil, or_false, forall_eq_or_imp, forall_eq] at hb
    obtain ⟨h0, h1, h2, h3, h4, h5, h6, h7⟩ := hb
    simp only [u64ToLeBytes, u64FromLeBytes, Nat.mul_zero, Nat.add_zero, List.cons.injEq,
      and_true]
    refine ⟨by omega, by omega, by omega, by omega, by omega, by omega, by omega, by omega⟩

/-- The escrow record, the program's single persistent entity (src/state.rs). -/
structure Escrow where
  is_initialized : Bool
  is_settled : Bool
  is_canceled : Bool
  payer : Pubkey
  payer_token : Pubkey
  payee_token : Pubkey
  vault_token : Pubkey
  fee_token : Pubkey
  authority : Pubkey
  amount : Nat
  fee : Nat
deriving DecidableEq, Repr

/-- Serialized length of the escrow record (Escrow::LEN). -/
def Escrow.LEN : Nat := 211

/-- Decoding of one boolean byte of the record: 0 is false, 1 is true, and
any other value fails with InvalidAccountData (src/state.rs match arms). -/
def decodeBoolByte (b : Nat) : Except ProgErr Bool :=
  if b = 0 then Except.ok false
  else if b = 1 then Except.ok true
  else Except.error ProgErr.InvalidAccountData

/-- Encoding of a boolean record field as one byte (bool as u8). -/
def boolByte (b : Bool) : Nat := if b then 1 else 0

/-- Escrow::unpack_from_slice composed with the Pack trait's length guard:
a region whose length is not exactly 211 fails with InvalidAccountData,
otherwise the fixed offset/width table of src/state.rs is decoded. -/
def Escrow.unpack_from_slice (src : List Nat) : Except ProgErr Escrow :=
  if src.length = Escrow.LEN then do
    let is_initialized ← decodeBoolByte (src.getD 0 0)
    let is_settled ← decodeBoolByte (src.getD 1 0)
    let is_canceled ← decodeBoolByte (src.getD 2 0)
    Except.ok
      { is_initialized := is_initialized
        is_settled := is_settled
        is_canceled := is_canceled
        payer := (src.drop 3).take 32
        payer_token := (src.drop 35).take 32
        payee_token := (src.drop 67).take 32
        vault_token := (src.drop 99).take 32
        authority := (src.drop 131).take 32
        fee_token := (src.drop 163).take 32
        amount := u64FromLeBytes ((src.drop 195).take 8)
        fee := u64FromLeBytes ((src.drop 203).take 8) }
  else Except.error ProgErr.InvalidAccountData

/-- Escrow::pack_into_slice: writes the record over the fixed 211-byte
layout (src/state.rs), returned here as the produced byte region. -/
def Escrow.pack_into_slice (e : Escrow) : List Nat :=
  boolByte e.is_initialized :: boolByte e.is_settled :: boolByte e.is_canceled ::
    (e.payer ++ (e.payer_token ++ (e.payee_token ++ (e.vault_token ++ (e.authority ++
      (e.fee_token ++ (u64ToLeBytes e.amount ++ u64ToLeBytes e.fee)))))))

/-- Pack::unpack_unchecked for Escrow: length guard plus unpack_from_slice,
with no initialized-flag requirement. -/
def Escrow.unpack_unchecked (src : List Nat) : Except ProgErr Escrow :=
  Escrow.unpack_from_slice src

/-- Pack::unpack for Escrow: the strict variant, additionally rejecting a
record whose initialized flag is false with UninitializedAccount. -/
def Escrow.unpack (src : List Nat) : Except ProgErr Escrow := do
  let e ← Escrow.unpack_unchecked src
  if e.is_initialized then Except.ok e
  else Except.error ProgErr.UninitializedAccount

/-- Pack::pack for Escrow: length guard on the destination region, then
pack_into_slice; returns the new contents of the region. -/
def Escrow.packBytes (e : Escrow) (dst : List Nat) : Except ProgErr (List Nat) :=
  if dst.length = Escrow.LEN then Except.ok (Escrow.pack_into_slice e)
  else Except.error ProgErr.InvalidAccountData

/-- Well-formedness of an in-memory escrow record value: the pubkey fields
are 32-byte addresses with byte values, and the integers fit in a u64.
These bounds are intrinsic to the Rust types ([u8; 32] and u64). -/
def Escrow.WF (e : Escrow) : Prop :=
  e.payer.length = 32 ∧ e.payer_token.length = 32 ∧ e.payee_token.length = 32 ∧
  e.vault_token.length = 32 ∧ e.authority.length = 32 ∧ e.fee_token.length = 32 ∧
  e.amount ≤ u64Max ∧ e.fee ≤ u64Max

instance (e : Escrow) : Decidable e.WF := by
  unfold Escrow.WF; infer_instance

@[simp]
theorem exceptOkBind (a : α) (f : α → Except ProgErr β) :
    (Except.ok a >>= f) = f a := rfl

@[simp]
theorem exceptErrBind (er : ProgErr) (f : α → Except ProgErr β) :
    ((Except.error er : Except ProgErr α) >>= f) = Except.error er := rfl

@[simp]
theorem exceptThrow (er : ProgErr) : (throw er : Except ProgErr α) = Except.error er := rfl

theorem decodeBoolByte_boolByte (b : Bool) :
    decodeBoolByte (boolByte b) = Except.ok b := by
  cases b <;> rfl

theorem u64ToLeBytes_length (n : Nat) : (u64ToLeBytes n).length = 8 := rfl

theorem Escrow.unpack_from_slice_pack (e : Escrow) (h : e.WF) :
    Escrow.unpack_from_slice (Escrow.pack_into_slice e) = Except.ok e := by
  obtain ⟨h1, h2, h3, h4, h5, h6, h7, h8⟩ := h
  have hlen : (Escrow.pack_into_slice e).length = Escrow.LEN := by
    simp only [Escrow.pack_into_slice, List.length_cons, List.length_append, h1, h2, h3, h4,
      h5, h6, u64ToLeBytes_length, Escrow.LEN]
  have t3 : (Escrow.pack_into_slice e).drop 3 =
      e.payer ++ (e.payer_token ++ (e.payee_token ++ (e.vault_token ++ (e.authority ++
        (e.fee_token ++ (u64ToLeBytes e.amount ++ u64ToLeBytes e.fee)))))) := rfl
  have t35 : (Escrow.pack_into_slice e).drop 35 =
      e.payer_token ++ (e.payee_token ++ (e.vault_token ++ (e.authority ++
        (e.fee_token ++ (u64ToLeBytes e.amount ++ u64ToLeBytes e.fee))))) := by
    rw [show (35 : Nat) = 3 + 32 from rfl, ← List.drop_drop, t3, List.drop_left' h1]
  have t67 : (Escrow.pack_into_slice e).drop 67 =
      e.payee_token ++ (e.vault_token ++ (e.authority ++
        (e.fee_token ++ (u64ToLeBytes e.amount ++ u64ToLeBytes e.fee)))) := by
    rw [show (67 : Nat) = 35 + 32 from rfl, ← List.drop_drop, t35, List.drop_left' h2]
  have t99 : (Escrow.pack_into_slice e).drop 99 =
      e.vault_token ++ (e.authority ++ (e.fee_token ++
        (u64ToLeBytes e.amount ++ u64ToLeBytes e.fee))) := by
    rw [show (99 : Nat) = 67 + 32 from rfl, ← List.drop_drop, t67, List.drop_left' h3]
  have t131 : (Escrow.pack_into_slice e).drop 131 =
      e.authority ++ (e.fee_token ++ (u64ToLeBytes e.amount ++ u64ToLeBytes e.fee)) := by
    rw [show (131 : Nat) = 99 + 32 from rfl, ← List.drop_drop, t99, List.drop_left' h4]
  have t163 : (Escrow.pack_into_slice e).drop 163 =
      e.fee_token ++ (u64ToLeBytes e.amount ++ u64ToLeBytes e.fee) := by
    rw [show (163 : Nat) = 131 + 32 from rfl, ← List.drop_drop, t131, List.drop_left' h5]
  have t195 : (Escrow.pack_into_slice e).drop 195 =
      u64ToLeBytes e.amount ++ u64ToLeBytes e.fee := by
    rw [show (195 : Nat) = 163 + 32 from rfl, ← List.drop_drop, t163, List.drop_left' h6]
  have t203 : (Escrow.pack_into_slice e).drop 203 = u64ToLeBytes e.fee := by
    rw [show (203 : Nat) = 195 + 8 from rfl, ← List.drop_drop, t195,
      List.drop_left' (u64ToLeBytes_length e.amount)]
  have s1 : ((Escrow.pack_into_slice e).drop 3).take 32 = e.payer := by
    rw [t3]; exact List.take_left' h1
  have s2 : ((Escrow.pack_into_slice e).drop 35).take 32 = e.payer_token := by
    rw [t35]; exact List.take_left' h2
  have s3 : ((Escrow.pack_into_slice e).drop 67).take 32 = e.payee_token := by
    rw [t67]; exact List.take_left' h3
  have s4 : ((Escrow.pack_into_slice e).drop 99).take 32 = e.vault_token := by
    rw [t99]; exact List.take_left' h4
  have s5 : ((Escrow.pack_into_slice e).drop 131).take 32 = e.authority := by
    rw [t131]; exact List.take_left' h5
  have s6 : ((Escrow.pack_into_slice e).drop 163).take 32 = e.fee_token := by
    rw [t163]; exact List.take_left' h6
  have s7 : ((Escrow.pack_into_slice e).drop 195).take 8 = u64ToLeBytes e.amount := by
    rw [t195]; exact List.take_left' (u64ToLeBytes_length e.amount)
  have s8 : ((Escrow.pack_into_slice e).drop 203).take 8 = u64ToLeBytes e.fee := by
    rw [t203]; exact List.take_of_length_le (by rw [u64ToLeBytes_length])
  have g0 : (Escrow.pack_into_slice e).getD 0 0 = boolByte e.is_initialized := rfl
  have g1 : (Escrow.pack_into_slice e).getD 1 0 = boolByte e.is_settled := rfl
  have g2 : (Escrow.pack_into_slice e).getD 2 0 = boolByte e.is_canceled := rfl
  unfold Escrow.unpack_from_slice
  rw [if_pos hlen]
  simp only [g0, g1, g2, decodeBoolByte_boolByte, exceptOkBind, s1, s2, s3, s4, s5, s6, s7,
    s8, u64FromLeBytes_toLeBytes e.amount h7, u64FromLeBytes_toLeBytes e.fee h8]

theorem Escrow.pack_unpack_from_slice (bytes : List Nat) (hlen : bytes.length = 211)
    (hbytes : ∀ b ∈ bytes, b < 256)
    (hb0 : bytes.getD 0 0 ≤ 1) (hb1 : bytes.getD 1 0 ≤ 1) (hb2 : bytes.getD 2 0 ≤ 1) :
    ∃ d, Escrow.unpack_from_slice bytes = Except.ok d ∧
      Escrow.pack_into_slice d = bytes := by
  rcases bytes with _ | ⟨b0, _ | ⟨b1, _ | ⟨b2, t⟩⟩⟩
  · simp at hlen
  · simp at hlen
  · simp at hlen
  have ht : t.length = 208 := by simpa using hlen
  simp only [List.getD_cons_zero, List.getD_cons_succ] at hb0 hb1 hb2
  have hbt : ∀ b ∈ t, b < 256 := fun b hb =>
    hbytes b (List.mem_cons_of_mem _ (List.mem_cons_of_mem _ (List.mem_cons_of_mem _ hb)))
  have hd0 : ∃ x, decodeBoolByte b0 = Except.ok x ∧ boolByte x = b0 := by
    rcases (by omega : b0 = 0 ∨ b0 = 1) with h | h <;> subst h
    · exact ⟨false, rfl, rfl⟩
    · exact ⟨true, rfl, rfl⟩
  have hd1 : ∃ x, decodeBoolByte b1 = Except.ok x ∧ boolByte x = b1 := by
    rcases (by omega : b1 = 0 ∨ b1 = 1) with h | h <;> subst h
    · exact ⟨false, rfl, rfl⟩
    · exact ⟨true, rfl, rfl⟩
  have hd2 : ∃ x, decodeBoolByte b2 = Except.ok x ∧ boolByte x = b2 := by
    rcases (by omega : b2 = 0 ∨ b2 = 1) with h | h <;> subst h
    · exact ⟨false, rfl, rfl⟩
    · exact ⟨true, rfl, rfl⟩
  obtain ⟨x0, hx0, hxb0⟩ := hd0
  obtain ⟨x1, hx1, hxb1⟩ := hd1
  obtain ⟨x2, hx2, hxb2⟩ := hd2
  have seg : ∀ (n k : Nat), ((t.drop k).take n) ++ t.drop (k + n) = t.drop k := by
    intro n k
    rw [← List.drop_drop]
    exact List.take_append_drop n (t.drop k)
  have s32 : ((t.drop 32).take 32) ++ t.drop 64 = t.drop 32 := seg 32 32
  have s64 : ((t.drop 64).take 32) ++ t.drop 96 = t.drop 64 := seg 32 64
  have s96 : ((t.drop 96).take 32) ++ t.drop 128 = t.drop 96 := seg 32 96
  have s128 : ((t.drop 128).take 32) ++ t.drop 160 = t.drop 128 := seg 32 128
  have s160 : ((t.drop 160).take 32) ++ t.drop 192 = t.drop 160 := seg 32 160
  have s192 : ((t.drop 192).take 8) ++ t.drop 200 = t.drop 192 := seg 8 192
  have hlast : (t.drop 200).take 8 = t.drop 200 :=
    List.take_of_length_le (by simp [List.length_drop, ht])
  have hseg7len : ((t.drop 192).take 8).length = 8 := by
    simp [List.length_take, List.length_drop, ht]
  have hseg8len : ((t.drop 200).take 8).length = 8 := by
    simp [List.length_take, List.length_drop, ht]
  have hseg7mem : ∀ b ∈ (t.drop 192).take 8, b < 256 := fun b hb =>
    hbt b ((List.drop_sublist 192 t).subset ((List.take_sublist 8 (t.drop 192)).subset hb))
  have hseg8mem : ∀ b ∈ (t.drop 200).take 8, b < 256 := fun b hb =>
    hbt b ((List.drop_sublist 200 t).subset ((List.take_sublist 8 (t.drop 200)).subset hb))
  refine ⟨{ is_initialized := x0, is_settled := x1, is_canceled := x2,
            payer := t.take 32, payer_token := (t.drop 32).take 32,
            payee_token := (t.drop 64).take 32, vault_token := (t.drop 96).take 32,
            authority := (t.drop 128).take 32, fee_token := (t.drop 160).take 32,
            amount := u64FromLeBytes ((t.drop 192).take 8),
            fee := u64FromLeBytes ((t.drop 200).take 8) }, ?_, ?_⟩
  · have g0 : (b0 :: b1 :: b2 :: t).getD 0 0 = b0 := rfl
    have g1 : (b0 :: b1 :: b2 :: t).getD 1 0 = b1 := rfl
    have g2 : (b0 :: b1 :: b2 :: t).getD 2 0 = b2 := rfl
    unfold Escrow.unpack_from_slice
    rw [if_pos (show (b0 :: b1 :: b2 :: t).length = Escrow.LEN from hlen)]
    simp only [g0, g1, g2, hx0, hx1, hx2, exceptOkBind]
    rfl
  · simp only [Escrow.pack_into_slice, hxb0, hxb1, hxb2,
      u64ToLeBytes_fromLeBytes _ hseg7len hseg7mem,
      u64ToLeBytes_fromLeBytes _ hseg8len hseg8mem]
    rw [hlast, s192, s160, s128, s96, s64, s32, List.take_append_drop 32 t]

/-- The four typed commands of the engine (src/instruction.rs). -/
inductive EscrowInstruction where
  | InitEscrow (amount : Nat) (fee : Nat)
  | Settle
  | Cancel
  | Close
deriving DecidableEq, Repr

/-- EscrowInstruction::unpack_amount: reads bytes 0..8 of the payload as a
little-endian u64, failing with InvalidInstruction when fewer than 8 bytes
are present (input.get(..8) returns None). -/
def EscrowInstruction.unpack_amount (input : List Nat) : Except ProgErr Nat :=
  if 8 ≤ input.length then Except.ok (u64FromLeBytes (input.take 8))
  else Except.error ProgErr.InvalidInstruction

/-- EscrowInstruction::unpack_fee: reads bytes 8..16 of the payload as a
little-endian u64, failing with InvalidInstruction when fewer than 16 bytes
are present (input.get(8..16) returns None). -/
def EscrowInstruction.unpack_fee (input : List Nat) : Except ProgErr Nat :=
  if 16 ≤ input.length then Except.ok (u64FromLeBytes ((input.drop 8).take 8))
  else Except.error ProgErr.InvalidInstruction

/-- EscrowInstruction::unpack: splits off the tag byte and dispatches on it
(src/instruction.rs). -/
def EscrowInstruction.unpack (input : List Nat) : Except ProgErr EscrowInstruction :=
  match input with
  | [] => Except.error ProgErr.InvalidInstruction
  | tag :: rest =>
    if tag = 0 then do
      let amount ← EscrowInstruction.unpack_amount rest
      let fee ← EscrowInstruction.unpack_fee rest
      Except.ok (EscrowInstruction.InitEscrow amount fee)
    else if tag = 1 then Except.ok EscrowInstruction.Settle
    else if tag = 2 then Except.ok EscrowInstruction.Cancel
    else if tag = 3 then Except.ok EscrowInstruction.Close
    else Except.error ProgErr.InvalidInstruction

/-- Modelled from the spec: the fields of an external token-ledger account
that the engine reads (balance, native flag, initialization flag) plus the
owner the Init transition reassigns (section 6 collaborator interface). -/
structure TokenAccount where
  amount : Nat
  owner : Pubkey
  isNative : Bool
  isInitialized : Bool
deriving DecidableEq, Repr

/-- Modelled from the spec: the host's rent-exemption predicate, a minimum
balance computed from the data size (section 6), kept abstract as a
supplied predicate on (lamports, data length). -/
structure Rent where
  isExempt : Nat → Nat → Bool

/-- The contents of a ledger account as one of the shapes the engine
touches: a raw byte region (the escrow record), an external token-ledger
account, or the rent sysvar. -/
inductive AccountData where
  | raw (bytes : List Nat)
  | token (t : TokenAccount)
  | rentSysvar (r : Rent)

/-- A ledger account handle as delivered by the host runtime: address,
signer flag, owning program, balance and data. -/
structure AccountInfo where
  key : Pubkey
  isSigner : Bool
  owner : Pubkey
  lamports : Nat
  data : AccountData

/-- Data length of an account, used by the rent-exemption guard. The token
ledger's account layout is 165 bytes; the rent sysvar's serialized size is
not read by this program. -/
def AccountData.dataLen : AccountData → Nat
  | AccountData.raw bytes => bytes.length
  | AccountData.token _ => 165
  | AccountData.rentSysvar _ => 17

/-- Modelled stand-in for spl_token::id(), the token ledger program address. -/
def splTokenId : Pubkey := List.replicate 32 6

/-- Modelled from the spec: the host's deterministic address derivation
from the fixed seed prefix and the program identity (find_program_authority
in src/lib.rs). Only determinism in the program id is relied upon, so an
arbitrary fixed computable function stands in for the hash search. -/
def find_program_authority (program_id : Pubkey) : Pubkey × Nat :=
  (7 :: 11 :: program_id, 255)

/-- next_account_info: takes the next account from the iterator, failing
with NotEnoughAccountKeys when the list is exhausted. The handlers below
read position k as next_account_info (accounts.drop k). -/
def next_account_info : List AccountInfo → Except ProgErr AccountInfo
  | [] => Except.error ProgErr.NotEnoughAccountKeys
  | a :: _ => Except.ok a

/-- assert_signer (src/utils.rs). -/
def assert_signer (account : AccountInfo) : Except ProgErr Unit :=
  if account.isSigner then Except.ok () else Except.error ProgErr.MissingRequiredSignature

/-- assert_owned_by (src/utils.rs). -/
def assert_owned_by (account : AccountInfo) (owner : Pubkey) : Except ProgErr Unit :=
  if account.owner ≠ owner then Except.error ProgErr.IllegalOwner else Except.ok ()

/-- assert_account_key (src/utils.rs). -/
def assert_account_key (account_info : AccountInfo) (key : Pubkey) : Except ProgErr Unit :=
  if account_info.key ≠ key then Except.error ProgErr.InvalidArgument else Except.ok ()

/-- assert_rent_exempt (src/utils.rs). -/
def assert_rent_exempt (rent : Rent) (account_info : AccountInfo) : Except ProgErr Unit :=
  if !(rent.isExempt account_info.lamports account_info.data.dataLen) then
    Except.error ProgErr.AccountNotRentExempt
  else Except.ok ()

/-- Modelled from the spec: read access to a token-ledger account's state
(TokenAccount::unpack), the strict variant that rejects an uninitialized
account; reading token state out of a non-token account fails with
InvalidAccountData (the layouts have different fixed lengths). -/
def TokenAccount.unpack (d : AccountData) : Except ProgErr TokenAccount :=
  match d with
  | AccountData.token t =>
      if t.isInitialized then Except.ok t else Except.error ProgErr.UninitializedAccount
  | _ => Except.error ProgErr.InvalidAccountData

/-- assert_initialized for token accounts (src/utils.rs): the unchecked
read followed by the initialization-flag check, failing with the program's
own AccountNotInitialized error. -/
def assert_initialized (account_info : AccountInfo) : Except ProgErr TokenAccount :=
  match account_info.data with
  | AccountData.token t =>
      if !t.isInitialized then Except.error ProgErr.AccountNotInitialized else Except.ok t
  | _ => Except.error ProgErr.InvalidAccountData

/-- Rent::from_account_info: reads the rent sysvar from the supplied
account, failing with InvalidArgument otherwise. -/
def Rent.from_account_info (account : AccountInfo) : Except ProgErr Rent :=
  match account.data with
  | AccountData.rentSysvar r => Except.ok r
  | _ => Except.error ProgErr.InvalidArgument

/-- Escrow::unpack applied to an account's data: the record codec runs over
the account's raw byte region; any other data shape has the wrong length
and fails the codec's length guard with InvalidAccountData. -/
def Escrow.unpackData (d : AccountData) : Except ProgErr Escrow :=
  match d with
  | AccountData.raw bytes => Escrow.unpack bytes
  | _ => Except.error ProgErr.InvalidAccountData

/-- Escrow::unpack_unchecked applied to an account's data. -/
def Escrow.unpackDataUnchecked (d : AccountData) : Except ProgErr Escrow :=
  match d with
  | AccountData.raw bytes => Escrow.unpack_unchecked bytes
  | _ => Except.error ProgErr.InvalidAccountData

/-- Escrow::pack applied to an account's data region: re-serializes the
record over the existing raw region, which must have the record length. -/
def Escrow.packData (e : Escrow) (d : AccountData) : Except ProgErr AccountData :=
  match d with
  | AccountData.raw bytes =>
      match Escrow.packBytes e bytes with
      | Except.ok newBytes => Except.ok (AccountData.raw newBytes)
      | Except.error er => Except.error er
  | _ => Except.error ProgErr.InvalidAccountData

/-- Modelled from the spec: the token ledger's transfer(from, to, amount,
authority) operation (section 6), debiting the source balance and
crediting the destination balance; both accounts must hold token state. -/
def tokenTransfer (src dst : AccountInfo) (amt : Nat) :
    Except ProgErr (AccountInfo × AccountInfo) :=
  match src.data, dst.data with
  | AccountData.token s, AccountData.token d =>
      Except.ok
        ({ src with data := AccountData.token { s with amount := s.amount - amt } },
         { dst with data := AccountData.token { d with amount := d.amount + amt } })
  | _, _ => Except.error ProgErr.InvalidAccountData

/-- Modelled from the spec: the token ledger's close_account(account,
rent_recipient, authority) operation (section 6): the account's whole
balance moves to the recipient and the account's storage is released.
Returns (closed account, credited recipient). -/
def tokenCloseAccount (account recipient : AccountInfo) : AccountInfo × AccountInfo :=
  ({ account with lamports := 0, data := AccountData.raw [] },
   { recipient with lamports := recipient.lamports + account.lamports })

/-- Modelled from the spec: the token ledger's set_owner operation
(section 6), reassigning the token account's owner authority; Init uses it
to hand vault custody to the derived program authority. -/
def tokenSetAuthority (account : AccountInfo) (newOwner : Pubkey) : AccountInfo :=
  match account.data with
  | AccountData.token t => { account with data := AccountData.token { t with owner := newOwner } }
  | _ => account

/-- Final state of the accounts that process_init_escrow writes, plus the
record it stores. An error outcome carries no writes: the runtime treats
the invocation as atomic and discards everything on failure. -/
structure InitEffects where
  escrowInfo : AccountInfo
  vaultTokenInfo : AccountInfo
  record : Escrow

/-- Final state of the accounts that process_settlement writes, plus the
record it stores. -/
structure SettleEffects where
  payeeTokenInfo : AccountInfo
  feeTokenInfo : AccountInfo
  vaultTokenInfo : AccountInfo
  escrowInfo : AccountInfo
  feePayerInfo : AccountInfo
  record : Escrow

/-- Final state of the accounts that process_cancel writes, plus the
record it stores. The fee token account is not among Cancel's accounts. -/
structure CancelEffects where
  payerTokenInfo : AccountInfo
  vaultTokenInfo : AccountInfo
  escrowInfo : AccountInfo
  feePayerInfo : AccountInfo
  record : Escrow

/-- Final state of the accounts that process_close writes. -/
structure CloseEffects where
  escrowInfo : AccountInfo
  feePayerInfo : AccountInfo

/-- Processor::process_init_escrow (src/processor.rs lines 54-142). -/
def process_init_escrow (accounts : List AccountInfo) (amount fee : Nat)
    (program_id : Pubkey) : Except ProgErr InitEffects := do
  let payer_info ← next_account_info accounts
  assert_signer payer_info
  let vault_token_info ← next_account_info (accounts.drop 1)
  assert_owned_by vault_token_info splTokenId
  let vault_token ← TokenAccount.unpack vault_token_info.data
  if vault_token.amount ≠ amount then throw ProgErr.ExpectedAmountMismatch
  let authority_info ← next_account_info (accounts.drop 2)
  assert_signer authority_info
  let escrow_info ← next_account_info (accounts.drop 3)
  let payer_token_info ← next_account_info (accounts.drop 4)
  let payee_token_info ← next_account_info (accounts.drop 5)
  let fee_token_info ← next_account_info (accounts.drop 6)
  if vault_token.isNative then
    assert_account_key payer_token_info payer_info.key
  else do
    assert_owned_by payer_token_info splTokenId
    assert_owned_by payee_token_info splTokenId
    assert_owned_by fee_token_info splTokenId
    let _ ← assert_initialized payer_token_info
    let _ ← assert_initialized payee_token_info
    let _ ← assert_initialized fee_token_info
  let rent_account ← next_account_info (accounts.drop 7)
  let rent ← Rent.from_account_info rent_account
  assert_rent_exempt rent escrow_info
  let escrow0 ← Escrow.unpackDataUnchecked escrow_info.data
  if escrow0.is_initialized then throw ProgErr.AccountAlreadyInitialized
  if fee > amount then throw ProgErr.FeeOverflow
  let escrow : Escrow :=
    { is_initialized := true, is_settled := false, is_canceled := false,
      fee := fee, payer := payer_info.key, payer_token := payer_token_info.key,
      payee_token := payee_token_info.key, vault_token := vault_token_info.key,
      fee_token := fee_token_info.key, authority := authority_info.key, amount := amount }
  let newData ← Escrow.packData escrow escrow_info.data
  let pda := (find_program_authority program_id).1
  let token_program_info ← next_account_info (accounts.drop 8)
  assert_account_key token_program_info splTokenId
  let vault_token_info2 := tokenSetAuthority vault_token_info pda
  Except.ok
    { escrowInfo := { escrow_info with data := newData },
      vaultTokenInfo := vault_token_info2, record := escrow }

/-- Tail of process_settlement shared by its two branches: marks the record
settled, re-serializes it into the escrow account's region, and collects
the final account states (src/processor.rs lines 312-315). -/
def finishSettle (escrow : Escrow) (payee_token_info fee_token_info vault_token_info
    escrow_info fee_payer_info : AccountInfo) : Except ProgErr SettleEffects := do
  let record : Escrow := { escrow with is_settled := true }
  let newData ← Escrow.packData record escrow_info.data
  Except.ok
    { payeeTokenInfo := payee_token_info, feeTokenInfo := fee_token_info,
      vaultTokenInfo := vault_token_info,
      escrowInfo := { escrow_info with data := newData },
      feePayerInfo := fee_payer_info, record := record }

/-- Processor::process_settlement (src/processor.rs lines 145-316). -/
def process_settlement (accounts : List AccountInfo) (program_id : Pubkey) :
    Except ProgErr SettleEffects := do
  let authority_info ← next_account_info accounts
  assert_signer authority_info
  let payee_token_info ← next_account_info (accounts.drop 1)
  let fee_token_info ← next_account_info (accounts.drop 2)
  let vault_token_info ← next_account_info (accounts.drop 3)
  assert_owned_by vault_token_info splTokenId
  let vault_token ← TokenAccount.unpack vault_token_info.data
  let escrow_info ← next_account_info (accounts.drop 4)
  let escrow ← Escrow.unpackData escrow_info.data
  if escrow.is_canceled then throw ProgErr.AccountAlreadyCanceled
  if escrow.is_settled then throw ProgErr.AccountAlreadySettled
  assert_account_key authority_info escrow.authority
  assert_account_key payee_token_info escrow.payee_token
  assert_account_key fee_token_info escrow.fee_token
  assert_account_key vault_token_info escrow.vault_token
  let fee_payer_info ← next_account_info (accounts.drop 5)
  let token_program_info ← next_account_info (accounts.drop 6)
  assert_account_key token_program_info splTokenId
  let vault := (find_program_authority program_id).1
  let vault_info ← next_account_info (accounts.drop 7)
  assert_account_key vault_info vault
  let fee := escrow.fee
  if fee > vault_token.amount then throw ProgErr.FeeOverflow
  let amount ← ok_or (checkedSub vault_token.amount fee) ProgErr.AmountOverflow
  if vault_token.isNative then do
    let closed := tokenCloseAccount vault_token_info escrow_info
    let vault_token_info2 := closed.1
    let escrow_info2 := closed.2
    let escrowLam ← ok_or (checkedSub escrow_info2.lamports amount) ProgErr.AmountOverflow
    let escrow_info3 := { escrow_info2 with lamports := escrowLam }
    let payeeLam ← ok_or (checkedAdd payee_token_info.lamports amount) ProgErr.AmountOverflow
    let payee_token_info2 := { payee_token_info with lamports := payeeLam }
    if fee > 0 then do
      let escrowLam2 ← ok_or (checkedSub escrow_info3.lamports fee) ProgErr.AmountOverflow
      let escrow_info4 := { escrow_info3 with lamports := escrowLam2 }
      let feeLam ← ok_or (checkedAdd fee_token_info.lamports fee) ProgErr.AmountOverflow
      let fee_token_info2 := { fee_token_info with lamports := feeLam }
      finishSettle escrow payee_token_info2 fee_token_info2 vault_token_info2
        escrow_info4 fee_payer_info
    else
      finishSettle escrow payee_token_info2 fee_token_info vault_token_info2
        escrow_info3 fee_payer_info
  else do
    let t1 ← tokenTransfer vault_token_info payee_token_info amount
    let vault_token_info2 := t1.1
    let payee_token_info2 := t1.2
    if fee > 0 then do
      let t2 ← tokenTransfer vault_token_info2 fee_token_info fee
      let vault_token_info3 := t2.1
      let fee_token_info2 := t2.2
      let closed := tokenCloseAccount vault_token_info3 fee_payer_info
      finishSettle escrow payee_token_info2 fee_token_info2 closed.1
        escrow_info closed.2
    else do
      let closed := tokenCloseAccount vault_token_info2 fee_payer_info
      finishSettle escrow payee_token_info2 fee_token_info closed.1
        escrow_info closed.2

/-- Tail of process_cancel shared by its two branches: marks the record
canceled, re-serializes it, and collects the final account states
(src/processor.rs lines 427-430). -/
def finishCancel (escrow : Escrow) (payer_token_info vault_token_info
    escrow_info fee_payer_info : AccountInfo) : Except ProgErr CancelEffects := do
  let record : Escrow := { escrow with is_canceled := true }
  let newData ← Escrow.packData record escrow_info.data
  Except.ok
    { payerTokenInfo := payer_token_info, vaultTokenInfo := vault_token_info,
      escrowInfo := { escrow_info with data := newData },
      feePayerInfo := fee_payer_info, record := record }

/-- Processor::process_cancel (src/processor.rs lines 319-431). Note that,
unlike process_settlement, it never asserts that the vault token account is
owned by the token program nor that the token program account carries the
token program id. -/
def process_cancel (accounts : List AccountInfo) (program_id : Pubkey) :
    Except ProgErr CancelEffects := do
  let authority_info ← next_account_info accounts
  assert_signer authority_info
  let escrow_info ← next_account_info (accounts.drop 1)
  let payer_token_info ← next_account_info (accounts.drop 2)
  let fee_payer_info ← next_account_info (accounts.drop 3)
  let vault_token_info ← next_account_info (accounts.drop 4)
  let vault_token ← TokenAccount.unpack vault_token_info.data
  let escrow ← Escrow.unpackData escrow_info.data
  if escrow.is_canceled then throw ProgErr.AccountAlreadyCanceled
  if escrow.is_settled then throw ProgErr.AccountAlreadySettled
  assert_account_key payer_token_info escrow.payer_token
  assert_account_key authority_info escrow.authority
  assert_account_key vault_token_info escrow.vault_token
  let _token_program_info ← next_account_info (accounts.drop 5)
  let vault_key := (find_program_authority program_id).1
  let vault_info ← next_account_info (accounts.drop 6)
  assert_account_key vault_info vault_key
  let amount := vault_token.amount
  if vault_token.isNative then do
    let closed := tokenCloseAccount vault_token_info escrow_info
    let vault_token_info2 := closed.1
    let escrow_info2 := closed.2
    let escrowLam ← ok_or (checkedSub escrow_info2.lamports amount) ProgErr.AmountOverflow
    let escrow_info3 := { escrow_info2 with lamports := escrowLam }
    let payerLam ← ok_or (checkedAdd payer_token_info.lamports amount) ProgErr.AmountOverflow
    let payer_token_info2 := { payer_token_info with lamports := payerLam }
    finishCancel escrow payer_token_info2 vault_token_info2 escrow_info3 fee_payer_info
  else do
    let t1 ← tokenTransfer vault_token_info payer_token_info amount
    let vault_token_info2 := t1.1
    let payer_token_info2 := t1.2
    let closed := tokenCloseAccount vault_token_info2 fee_payer_info
    finishCancel escrow payer_token_info2 closed.1 escrow_info closed.2

/-- Processor::process_close (src/processor.rs lines 434-461). -/
def process_close (accounts : List AccountInfo) (program_id : Pubkey) :
    Except ProgErr CloseEffects := do
  let authority_info ← next_account_info accounts
  assert_signer authority_info
  let escrow_info ← next_account_info (accounts.drop 1)
  assert_owned_by escrow_info program_id
  let escrow ← Escrow.unpackData escrow_info.data
  if escrow.authority ≠ authority_info.key then throw ProgErr.InvalidAccountData
  if !(escrow.is_settled || escrow.is_canceled) then
    throw ProgErr.AccountNotSettledOrCanceled
  let fee_payer_info ← next_account_info (accounts.drop 2)
  let feePayerLam ←
    ok_or (checkedAdd fee_payer_info.lamports escrow_info.lamports) ProgErr.AmountOverflow
  Except.ok
    { escrowInfo := { escrow_info with lamports := 0, data := AccountData.raw [] },
      feePayerInfo := { fee_payer_info with lamports := feePayerLam } }

/-- C7: For every input byte buffer, instruction decoding behaves as: first
byte 0 yields Init with amount read as little-endian u64 from the next 8
bytes and fee from the 8 bytes after that; first byte 1, 2, 3 yield Settle,
Cancel, Close with no payload; an empty buffer, any other first byte, or
fewer than 16 bytes following tag 0 fails with InvalidInstruction, and no
partially-decoded command is ever produced. -/
theorem instruction_codec_decodes_tags (input : List Nat) :
    (input = [] → EscrowInstruction.unpack input = Except.error ProgErr.InvalidInstruction) ∧
    (∀ tag rest, input = tag :: rest →
      (tag = 0 ∧ 16 ≤ rest.length →
        EscrowInstruction.unpack input =
          Except.ok (EscrowInstruction.InitEscrow (u64FromLeBytes (rest.take 8))
            (u64FromLeBytes ((rest.drop 8).take 8)))) ∧
      (tag = 0 ∧ rest.length < 16 →
        EscrowInstruction.unpack input = Except.error ProgErr.InvalidInstruction) ∧
      (tag = 1 → EscrowInstruction.unpack input = Except.ok EscrowInstruction.Settle) ∧
      (tag = 2 → EscrowInstruction.unpack input = Except.ok EscrowInstruction.Cancel) ∧
      (tag = 3 → EscrowInstruction.unpack input = Except.ok EscrowInstruction.Close) ∧
      (3 < tag → EscrowInstruction.unpack input = Except.error ProgErr.InvalidInstruction)) := by
  constructor
  · intro h
    subst h
    rfl
  · intro tag rest heq
    subst heq
    refine ⟨?_, ?_, ?_, ?_, ?_, ?_⟩
    · rintro ⟨rfl, hlen⟩
      simp [EscrowInstruction.unpack, EscrowInstruction.unpack_amount,
        EscrowInstruction.unpack_fee, if_pos hlen, if_pos (by omega : 8 ≤ rest.length)]
    · rintro ⟨rfl, hlen⟩
      rcases le_or_lt 8 rest.length with h8 | h8
      · simp [EscrowInstruction.unpack, EscrowInstruction.unpack_amount,
          EscrowInstruction.unpack_fee, if_pos h8, if_neg (by omega : ¬ 16 ≤ rest.length)]
      · simp [EscrowInstruction.unpack, EscrowInstruction.unpack_amount,
          if_neg (by omega : ¬ 8 ≤ rest.length)]
    · rintro rfl; rfl
    · rintro rfl; rfl
    · rintro rfl; rfl
    · intro h4
      simp only [EscrowInstruction.unpack, if_neg (by omega : ¬ tag = 0),
        if_neg (by omega : ¬ tag = 1), if_neg (by omega : ¬ tag = 2),
        if_neg (by omega : ¬ tag = 3)]

theorem instruction_codec_decodes_tags_witness :
    EscrowInstruction.unpack [0, 232, 3, 0, 0, 0, 0, 0, 0, 50, 0, 0, 0, 0, 0, 0, 0] =
      Except.ok (EscrowInstruction.InitEscrow 1000 50) := by
  have h := ((instruction_codec_decodes_tags
      [0, 232, 3, 0, 0, 0, 0, 0, 0, 50, 0, 0, 0, 0, 0, 0, 0]).2 0
      [232, 3, 0, 0, 0, 0, 0, 0, 50, 0, 0, 0, 0, 0, 0, 0] rfl).1 ⟨rfl, by decide⟩
  exact h

/-- C8: Record codec round-trip over the fixed 211-byte layout: for every
211-byte region whose three boolean bytes are each 0 or 1,
encode(decode(bytes)) = bytes; for every record value (with the field
bounds intrinsic to the Rust types), decode(encode(record)) = record; and
decoding a 211-byte region whose boolean bytes are anything other than
exactly 0 or 1 fails with InvalidAccountData. -/
theorem escrow_codec_round_trip (bytes : List Nat) (e : Escrow) :
    (bytes.length = 211 → (∀ b ∈ bytes, b < 256) →
      bytes.getD 0 0 ≤ 1 → bytes.getD 1 0 ≤ 1 → bytes.getD 2 0 ≤ 1 →
      ∃ d, Escrow.unpack_from_slice bytes = Except.ok d ∧
        Escrow.pack_into_slice d = bytes) ∧
    (e.WF → Escrow.unpack_from_slice (Escrow.pack_into_slice e) = Except.ok e) ∧
    (bytes.length = 211 →
      ¬(bytes.getD 0 0 ≤ 1 ∧ bytes.getD 1 0 ≤ 1 ∧ bytes.getD 2 0 ≤ 1) →
      Escrow.unpack_from_slice bytes = Except.error ProgErr.InvalidAccountData) := by
  refine ⟨?_, ?_, ?_⟩
  · intro hlen hb h0 h1 h2
    exact Escrow.pack_unpack_from_slice bytes hlen hb h0 h1 h2
  · intro hwf
    exact Escrow.unpack_from_slice_pack e hwf
  · intro hlen hbad
    have hbadByte : ∀ b : Nat, ¬ b ≤ 1 →
        decodeBoolByte b = Except.error ProgErr.InvalidAccountData := by
      intro b hb
      unfold decodeBoolByte
      rw [if_neg (by omega), if_neg (by omega)]
    have hokByte : ∀ b : Nat, b ≤ 1 → ∃ x, decodeBoolByte b = Except.ok x := by
      intro b hb
      rcases (by omega : b = 0 ∨ b = 1) with h | h <;> subst h
      · exact ⟨false, rfl⟩
      · exact ⟨true, rfl⟩
    unfold Escrow.unpack_from_slice
    rw [if_pos (show bytes.length = Escrow.LEN from hlen)]
    by_cases h0 : bytes.getD 0 0 ≤ 1
    · obtain ⟨x0, hx0⟩ := hokByte _ h0
      by_cases h1 : bytes.getD 1 0 ≤ 1
      · obtain ⟨x1, hx1⟩ := hokByte _ h1
        have h2 : ¬ bytes.getD 2 0 ≤ 1 := by tauto
        simp only [hx0, hx1, hbadByte _ h2, exceptOkBind, exceptErrBind]
      · simp only [hx0, hbadByte _ h1, exceptOkBind, exceptErrBind]
    · simp only [hbadByte _ h0, exceptErrBind]

theorem escrow_codec_round_trip_witness :
    Escrow.unpack_from_slice (Escrow.pack_into_slice
      { is_initialized := true, is_settled := false, is_canceled := false,
        payer := List.replicate 32 8, payer_token := List.replicate 32 10,
        payee_token := List.replicate 32 3, vault_token := List.replicate 32 5,
        fee_token := List.replicate 32 4, authority := List.replicate 32 2,
        amount := 1000, fee := 50 }) =
      Except.ok
      { is_initialized := true, is_settled := false, is_canceled := false,
        payer := List.replicate 32 8, payer_token := List.replicate 32 10,
        payee_token := List.replicate 32 3, vault_token := List.replicate 32 5,
        fee_token := List.replicate 32 4, authority := List.replicate 32 2,
        amount := 1000, fee := 50 } :=
  (escrow_codec_round_trip [] _).2.1 (by decide)

theorem Escrow.unpack_from_slice_length (bytes : List Nat) (e : Escrow)
    (h : Escrow.unpack_from_slice bytes = Except.ok e) : bytes.length = 211 := by
  by_cases hl : bytes.length = Escrow.LEN
  · exact hl
  · unfold Escrow.unpack_from_slice at h
    rw [if_neg hl] at h
    cases h

theorem ok_or_ite (c : Prop) [Decidable c] (x : Nat) (er : ProgErr) :
    ok_or (if c then some x else none) er =
      if c then Except.ok x else Except.error er := by
  split <;> rfl

theorem close_eval_illegal_owner (pid : Pubkey) (auth esc fp : AccountInfo)
    (rest : List AccountInfo)
    (hsig : auth.isSigner = true) (hne : esc.owner ≠ pid) :
    process_close (auth :: esc :: fp :: rest) pid = Except.error ProgErr.IllegalOwner := by
  simp [process_close, next_account_info, assert_signer, hsig, assert_owned_by, hne]

theorem close_eval_bad_authority (pid : Pubkey) (e : Escrow) (bytes : List Nat)
    (auth esc fp : AccountInfo) (rest : List AccountInfo)
    (hsig : auth.isSigner = true) (hown : esc.owner = pid)
    (hed : esc.data = AccountData.raw bytes)
    (hdec : Escrow.unpack_from_slice bytes = Except.ok e)
    (hinit : e.is_initialized = true)
    (hne : e.authority ≠ auth.key) :
    process_close (auth :: esc :: fp :: rest) pid =
      Except.error ProgErr.InvalidAccountData := by
  simp [process_close, next_account_info, assert_signer, hsig, assert_owned_by, hown,
    Escrow.unpackData, hed, Escrow.unpack, Escrow.unpack_unchecked, hdec, hinit, hne]

theorem close_eval_not_terminal (pid : Pubkey) (e : Escrow) (bytes : List Nat)
    (auth esc fp : AccountInfo) (rest : List AccountInfo)
    (hsig : auth.isSigner = true) (hown : esc.owner = pid)
    (hed : esc.data = AccountData.raw bytes)
    (hdec : Escrow.unpack_from_slice bytes = Except.ok e)
    (hinit : e.is_initialized = true)
    (hauth : e.authority = auth.key)
    (hns : e.is_settled = false) (hnc : e.is_canceled = false) :
    process_close (auth :: esc :: fp :: rest) pid =
      Except.error ProgErr.AccountNotSettledOrCanceled := by
  simp [process_close, next_account_info, assert_signer, hsig, assert_owned_by, hown,
    Escrow.unpackData, hed, Escrow.unpack, Escrow.unpack_unchecked, hdec, hinit, hauth,
    hns, hnc]

theorem close_eval_ok (pid : Pubkey) (e : Escrow) (bytes : List Nat)
    (auth esc fp : AccountInfo) (rest : List AccountInfo)
    (hsig : auth.isSigner = true) (hown : esc.owner = pid)
    (hed : esc.data = AccountData.raw bytes)
    (hdec : Escrow.unpack_from_slice bytes = Except.ok e)
    (hinit : e.is_initialized = true)
    (hauth : e.authority = auth.key)
    (hterm : e.is_settled = true ∨ e.is_canceled = true)
    (hlam : fp.lamports + esc.lamports ≤ u64Max) :
    process_close (auth :: esc :: fp :: rest) pid = Except.ok
      { escrowInfo := { esc with lamports := 0, data := AccountData.raw [] },
        feePayerInfo := { fp with lamports := fp.lamports + esc.lamports } } := by
  rcases hterm with h | h <;>
    simp [process_close, next_account_info, assert_signer, hsig, assert_owned_by, hown,
      Escrow.unpackData, hed, Escrow.unpack, Escrow.unpack_unchecked, hdec, hinit, hauth,
      h, ok_or, checkedAdd, hlam]

theorem close_eval_overflow (pid : Pubkey) (e : Escrow) (bytes : List Nat)
    (auth esc fp : AccountInfo) (rest : List AccountInfo)
    (hsig : auth.isSigner = true) (hown : esc.owner = pid)
    (hed : esc.data = AccountData.raw bytes)
    (hdec : Escrow.unpack_from_slice bytes = Except.ok e)
    (hinit : e.is_initialized = true)
    (hauth : e.authority = auth.key)
    (hterm : e.is_settled = true ∨ e.is_canceled = true)
    (hlam : ¬ fp.lamports + esc.lamports ≤ u64Max) :
    process_close (auth :: esc :: fp :: rest) pid =
      Except.error ProgErr.AmountOverflow := by
  rcases hterm with h | h <;>
    simp [process_close, next_account_info, assert_signer, hsig, assert_owned_by, hown,
      Escrow.unpackData, hed, Escrow.unpack, Escrow.unpack_unchecked, hdec, hinit, hauth,
      h, ok_or, checkedAdd, hlam]

/-- Fixture address used by concrete witness scenarios. -/
def wPk (n : Nat) : Pubkey := List.replicate 32 n

/-- Fixture program id for witness scenarios. -/
def wPid : Pubkey := wPk 1

/-- Fixture open escrow record for witness scenarios. -/
def wE : Escrow :=
  { is_initialized := true, is_settled := false, is_canceled := false,
    payer := wPk 8, payer_token := wPk 10, payee_token := wPk 3,
    vault_token := wPk 5, fee_token := wPk 4, authority := wPk 2,
    amount := 1000, fee := 50 }

/-- Fixture settled escrow record. -/
def wESettled : Escrow := { wE with is_settled := true }

/-- Fixture canceled escrow record. -/
def wECanceled : Escrow := { wE with is_canceled := true }

/-- Serialized fixture records. -/
def wBytes : List Nat := Escrow.pack_into_slice wE

/-- Serialized settled fixture record. -/
def wBytesSettled : List Nat := Escrow.pack_into_slice wESettled

/-- Serialized canceled fixture record. -/
def wBytesCanceled : List Nat := Escrow.pack_into_slice wECanceled

/-- Fixture authority account (signer). -/
def wAuth : AccountInfo :=
  { key := wPk 2, isSigner := true, owner := wPk 0, lamports := 0,
    data := AccountData.raw [] }

/-- Fixture payee lamport account. -/
def wPayee : AccountInfo :=
  { key := wPk 3, isSigner := false, owner := wPk 0, lamports := 100,
    data := AccountData.raw [] }

/-- Fixture fee lamport account. -/
def wFee : AccountInfo :=
  { key := wPk 4, isSigner := false, owner := wPk 0, lamports := 7,
    data := AccountData.raw [] }

/-- Fixture native vault token account holding 1000 units. -/
def wVaultNative : TokenAccount :=
  { amount := 1000, owner := (find_program_authority wPid).1, isNative := true,
    isInitialized := true }

/-- Fixture vault token account info (owned by the token program). -/
def wVaultTok : AccountInfo :=
  { key := wPk 5, isSigner := false, owner := splTokenId, lamports := 1500,
    data := AccountData.token wVaultNative }

/-- Fixture escrow account holding the open record. -/
def wEsc : AccountInfo :=
  { key := wPk 9, isSigner := false, owner := wPid, lamports := 2000,
    data := AccountData.raw wBytes }

/-- Fixture escrow account holding the settled record. -/
def wEscSettled : AccountInfo := { wEsc with data := AccountData.raw wBytesSettled }

/-- Fixture escrow account holding the canceled record. -/
def wEscCanceled : AccountInfo := { wEsc with data := AccountData.raw wBytesCanceled }

/-- Fixture fee-payer account. -/
def wFeePayer : AccountInfo :=
  { key := wPk 12, isSigner := false, owner := wPk 0, lamports := 3,
    data := AccountData.raw [] }

/-- Fixture token program account. -/
def wTokProg : AccountInfo :=
  { key := splTokenId, isSigner := false, owner := wPk 0, lamports := 1,
    data := AccountData.raw [] }

/-- Fixture derived-authority account. -/
def wVaultPda : AccountInfo :=
  { key := (find_program_authority wPid).1, isSigner := false, owner := wPk 0,
    lamports := 0, data := AccountData.raw [] }

/-- Fixture payer token lamport account. -/
def wPayerTok : AccountInfo :=
  { key := wPk 10, isSigner := false, owner := wPk 0, lamports := 40,
    data := AccountData.raw [] }

/-- C5: For every Close invocation, it succeeds only when the record's
is_settled or is_canceled flag is true and the signing account's key equals
the record's stored authority; if the record is neither settled nor
canceled it fails with AccountNotSettledOrCanceled and the record is
untouched (an error outcome carries no writes in this embedding, matching
the runtime's atomic discard); on success the escrow account's entire
balance is added to the designated recipient and the escrow account's data
and balance are zeroed, destroying the record. -/
theorem close_requires_terminal_state
    (pid : Pubkey) (e : Escrow) (bytes : List Nat) (auth esc fp : AccountInfo)
    (rest : List AccountInfo)
    (hsig : auth.isSigner = true)
    (hown : esc.owner = pid)
    (hed : esc.data = AccountData.raw bytes)
    (hdec : Escrow.unpack_from_slice bytes = Except.ok e)
    (hinit : e.is_initialized = true) :
    (∀ eff, process_close (auth :: esc :: fp :: rest) pid = Except.ok eff →
      (e.is_settled = true ∨ e.is_canceled = true) ∧ e.authority = auth.key) ∧
    (e.authority = auth.key → e.is_settled = false → e.is_canceled = false →
      process_close (auth :: esc :: fp :: rest) pid =
        Except.error ProgErr.AccountNotSettledOrCanceled) ∧
    (e.authority = auth.key → (e.is_settled = true ∨ e.is_canceled = true) →
      fp.lamports + esc.lamports ≤ u64Max →
      process_close (auth :: esc :: fp :: rest) pid = Except.ok
        { escrowInfo := { esc with lamports := 0, data := AccountData.raw [] },
          feePayerInfo := { fp with lamports := fp.lamports + esc.lamports } }) := by
  refine ⟨?_, ?_, ?_⟩
  · intro eff heff
    by_cases hA : e.authority = auth.key
    · cases hS : e.is_settled with
      | true => exact ⟨Or.inl rfl, hA⟩
      | false =>
        cases hC : e.is_canceled with
        | true => exact ⟨Or.inr rfl, hA⟩
        | false =>
          rw [close_eval_not_terminal pid e bytes auth esc fp rest hsig hown hed hdec
            hinit hA hS hC] at heff
          cases heff
    · rw [close_eval_bad_authority pid e bytes auth esc fp rest hsig hown hed hdec
        hinit hA] at heff
      cases heff
  · intro hA hns hnc
    exact close_eval_not_terminal pid e bytes auth esc fp rest hsig hown hed hdec hinit
      hA hns hnc
  · intro hA hterm hlam
    exact close_eval_ok pid e bytes auth esc fp rest hsig hown hed hdec hinit hA hterm
      hlam

theorem close_requires_terminal_state_witness :
    process_close [wAuth, wEscSettled, wFeePayer] wPid = Except.ok
      { escrowInfo := { wEscSettled with lamports := 0, data := AccountData.raw [] },
        feePayerInfo := { wFeePayer with
          lamports := wFeePayer.lamports + wEscSettled.lamports } } :=
  (close_requires_terminal_state wPid wESettled wBytesSettled wAuth wEscSettled
    wFeePayer [] rfl rfl rfl rfl rfl).2.2 rfl (Or.inl rfl) (by decide)

/-- C10: For every Close invocation, the escrow account must be owned by
the executing program itself, failing with IllegalOwner otherwise, and a
signer whose key differs from the record's stored authority is rejected
with InvalidAccountData, which is not the InvalidArgument error that the
assert_account_key guard used elsewhere produces; both checks happen
before any balance movement (both outcomes are errors, which carry no
writes in this embedding). -/
theorem close_owner_and_authority_checks
    (pid : Pubkey) (e : Escrow) (bytes : List Nat) (auth esc fp : AccountInfo)
    (rest : List AccountInfo)
    (hsig : auth.isSigner = true)
    (hed : esc.data = AccountData.raw bytes)
    (hdec : Escrow.unpack_from_slice bytes = Except.ok e)
    (hinit : e.is_initialized = true) :
    (esc.owner ≠ pid →
      process_close (auth :: esc :: fp :: rest) pid =
        Except.error ProgErr.IllegalOwner) ∧
    (esc.owner = pid → e.authority ≠ auth.key →
      process_close (auth :: esc :: fp :: rest) pid =
        Except.error ProgErr.InvalidAccountData) ∧
    ProgErr.InvalidAccountData ≠ ProgErr.InvalidArgument := by
  refine ⟨?_, ?_, by decide⟩
  · intro hne
    exact close_eval_illegal_owner pid auth esc fp rest hsig hne
  · intro hown hne
    exact close_eval_bad_authority pid e bytes auth esc fp rest hsig hown hed hdec hinit
      hne

theorem close_owner_and_authority_checks_witness :
    process_close [wAuth, { wEscSettled with owner := wPk 30 }, wFeePayer] wPid =
      Except.error ProgErr.IllegalOwner :=
  (close_owner_and_authority_checks wPid wESettled wBytesSettled wAuth
    { wEscSettled with owner := wPk 30 } wFeePayer [] rfl rfl rfl rfl).1 (by decide)

theorem settle_eval_canceled (pid : Pubkey) (e : Escrow) (bytes : List Nat)
    (vt : TokenAccount) (auth payee feeT vaultT esc : AccountInfo)
    (rest : List AccountInfo)
    (hsig : auth.isSigner = true)
    (hownV : vaultT.owner = splTokenId)
    (hvd : vaultT.data = AccountData.token vt)
    (hvinit : vt.isInitialized = true)
    (hed : esc.data = AccountData.raw bytes)
    (hdec : Escrow.unpack_from_slice bytes = Except.ok e)
    (hinit : e.is_initialized = true)
    (hc : e.is_canceled = true) :
    process_settlement (auth :: payee :: feeT :: vaultT :: esc :: rest) pid =
      Except.error ProgErr.AccountAlreadyCanceled := by
  simp [process_settlement, next_account_info, assert_signer, hsig, assert_owned_by,
    hownV, TokenAccount.unpack, hvd, hvinit, Escrow.unpackData, hed, Escrow.unpack,
    Escrow.unpack_unchecked, hdec, hinit, hc]

theorem settle_eval_settled (pid : Pubkey) (e : Escrow) (bytes : List Nat)
    (vt : TokenAccount) (auth payee feeT vaultT esc : AccountInfo)
    (rest : List AccountInfo)
    (hsig : auth.isSigner = true)
    (hownV : vaultT.owner = splTokenId)
    (hvd : vaultT.data = AccountData.token vt)
    (hvinit : vt.isInitialized = true)
    (hed : esc.data = AccountData.raw bytes)
    (hdec : Escrow.unpack_from_slice bytes = Except.ok e)
    (hinit : e.is_initialized = true)
    (hnc : e.is_canceled = false) (hs : e.is_settled = true) :
    process_settlement (auth :: payee :: feeT :: vaultT :: esc :: rest) pid =
      Except.error ProgErr.AccountAlreadySettled := by
  simp [process_settlement, next_account_info, assert_signer, hsig, assert_owned_by,
    hownV, TokenAccount.unpack, hvd, hvinit, Escrow.unpackData, hed, Escrow.unpack,
    Escrow.unpack_unchecked, hdec, hinit, hnc, hs]

theorem cancel_eval_canceled (pid : Pubkey) (e : Escrow) (bytes : List Nat)
    (vt : TokenAccount) (auth esc payerT fp vaultT : AccountInfo)
    (rest : List AccountInfo)
    (hsig : auth.isSigner = true)
    (hvd : vaultT.data = AccountData.token vt)
    (hvinit : vt.isInitialized = true)
    (hed : esc.data = AccountData.raw bytes)
    (hdec : Escrow.unpack_from_slice bytes = Except.ok e)
    (hinit : e.is_initialized = true)
    (hc : e.is_canceled = true) :
    process_cancel (auth :: esc :: payerT :: fp :: vaultT :: rest) pid =
      Except.error ProgErr.AccountAlreadyCanceled := by
  simp [process_cancel, next_account_info, assert_signer, hsig, TokenAccount.unpack,
    hvd, hvinit, Escrow.unpackData, hed, Escrow.unpack, Escrow.unpack_unchecked, hdec,
    hinit, hc]

theorem cancel_eval_settled (pid : Pubkey) (e : Escrow) (bytes : List Nat)
    (vt : TokenAccount) (auth esc payerT fp vaultT : AccountInfo)
    (rest : List AccountInfo)
    (hsig : auth.isSigner = true)
    (hvd : vaultT.data = AccountData.token vt)
    (hvinit : vt.isInitialized = true)
    (hed : esc.data = AccountData.raw bytes)
    (hdec : Escrow.unpack_from_slice bytes = Except.ok e)
    (hinit : e.is_initialized = true)
    (hnc : e.is_canceled = false) (hs : e.is_settled = true) :
    process_cancel (auth :: esc :: payerT :: fp :: vaultT :: rest) pid =
      Except.error ProgErr.AccountAlreadySettled := by
  simp [process_cancel, next_account_info, assert_signer, hsig, TokenAccount.unpack,
    hvd, hvinit, Escrow.unpackData, hed, Escrow.unpack, Escrow.unpack_unchecked, hdec,
    hinit, hnc, hs]

/-- C3: For every escrow record on which Settle or Cancel has already
succeeded (is_settled or is_canceled true), any subsequent Settle or Cancel
invocation fails with AccountAlreadySettled (when settled) or
AccountAlreadyCanceled (when canceled). The failing invocation returns an
error before reaching any write, and an error outcome carries no writes in
this embedding (the runtime discards the invocation atomically), so the
record's three boolean flags and the rest of the record are unchanged. -/
theorem double_settle_cancel_rejected
    (pid : Pubkey) (e : Escrow) (bytes : List Nat) (vt : TokenAccount)
    (auth payee feeT vaultT esc payerT fp : AccountInfo)
    (rest₁ rest₂ : List AccountInfo)
    (hsig : auth.isSigner = true)
    (hownV : vaultT.owner = splTokenId)
    (hvd : vaultT.data = AccountData.token vt)
    (hvinit : vt.isInitialized = true)
    (hed : esc.data = AccountData.raw bytes)
    (hdec : Escrow.unpack_from_slice bytes = Except.ok e)
    (hinit : e.is_initialized = true) :
    (e.is_canceled = true →
      process_settlement (auth :: payee :: feeT :: vaultT :: esc :: rest₁) pid =
        Except.error ProgErr.AccountAlreadyCanceled ∧
      process_cancel (auth :: esc :: payerT :: fp :: vaultT :: rest₂) pid =
        Except.error ProgErr.AccountAlreadyCanceled) ∧
    (e.is_canceled = false → e.is_settled = true →
      process_settlement (auth :: payee :: feeT :: vaultT :: esc :: rest₁) pid =
        Except.error ProgErr.AccountAlreadySettled ∧
      process_cancel (auth :: esc :: payerT :: fp :: vaultT :: rest₂) pid =
        Except.error ProgErr.AccountAlreadySettled) := by
  constructor
  · intro hc
    exact ⟨settle_eval_canceled pid e bytes vt auth payee feeT vaultT esc rest₁ hsig
        hownV hvd hvinit hed hdec hinit hc,
      cancel_eval_canceled pid e bytes vt auth esc payerT fp vaultT rest₂ hsig hvd
        hvinit hed hdec hinit hc⟩
  · intro hnc hs
    exact ⟨settle_eval_settled pid e bytes vt auth payee feeT vaultT esc rest₁ hsig
        hownV hvd hvinit hed hdec hinit hnc hs,
      cancel_eval_settled pid e bytes vt auth esc payerT fp vaultT rest₂ hsig hvd
        hvinit hed hdec hinit hnc hs⟩

theorem double_settle_cancel_rejected_witness :
    process_settlement [wAuth, wPayee, wFee, wVaultTok, wEscSettled] wPid =
      Except.error ProgErr.AccountAlreadySettled ∧
    process_cancel [wAuth, wEscSettled, wPayerTok, wFeePayer, wVaultTok] wPid =
      Except.error ProgErr.AccountAlreadySettled :=
  (double_settle_cancel_rejected wPid wESettled wBytesSettled wVaultNative wAuth wPayee
    wFee wVaultTok wEscSettled wPayerTok wFeePayer [] [] rfl rfl rfl rfl rfl rfl
    rfl).2 rfl rfl

theorem settle_eval_fee_overflow (pid : Pubkey) (e : Escrow) (bytes : List Nat)
    (vt : TokenAccount) (auth payee feeT vaultT esc fp tp vp : AccountInfo)
    (rest : List AccountInfo)
    (hsig : auth.isSigner = true)
    (hownV : vaultT.owner = splTokenId)
    (hvd : vaultT.data = AccountData.token vt)
    (hvinit : vt.isInitialized = true)
    (hed : esc.data = AccountData.raw bytes)
    (hdec : Escrow.unpack_from_slice bytes = Except.ok e)
    (hinit : e.is_initialized = true)
    (hnc : e.is_canceled = false) (hns : e.is_settled = false)
    (hk1 : auth.key = e.authority) (hk2 : payee.key = e.payee_token)
    (hk3 : feeT.key = e.fee_token) (hk4 : vaultT.key = e.vault_token)
    (hk5 : tp.key = splTokenId) (hk6 : vp.key = (find_program_authority pid).1)
    (hfee : e.fee > vt.amount) :
    process_settlement (auth :: payee :: feeT :: vaultT :: esc :: fp :: tp :: vp :: rest)
      pid = Except.error ProgErr.FeeOverflow := by
  simp [process_settlement, next_account_info, assert_signer, hsig, assert_owned_by,
    hownV, TokenAccount.unpack, hvd, hvinit, Escrow.unpackData, hed, Escrow.unpack,
    Escrow.unpack_unchecked, hdec, hinit, hnc, hns, assert_account_key, hk1, hk2, hk3,
    hk4, hk5, hk6, hfee]

theorem settle_eval_native_ok_fee (pid : Pubkey) (e : Escrow) (bytes : List Nat)
    (vt : TokenAccount) (auth payee feeT vaultT esc fp tp vp : AccountInfo)
    (rest : List AccountInfo)
    (hsig : auth.isSigner = true)
    (hownV : vaultT.owner = splTokenId)
    (hvd : vaultT.data = AccountData.token vt)
    (hvinit : vt.isInitialized = true)
    (hed : esc.data = AccountData.raw bytes)
    (hdec : Escrow.unpack_from_slice bytes = Except.ok e)
    (hinit : e.is_initialized = true)
    (hnc : e.is_canceled = false) (hns : e.is_settled = false)
    (hk1 : auth.key = e.authority) (hk2 : payee.key = e.payee_token)
    (hk3 : feeT.key = e.fee_token) (hk4 : vaultT.key = e.vault_token)
    (hk5 : tp.key = splTokenId) (hk6 : vp.key = (find_program_authority pid).1)
    (hfee : e.fee ≤ vt.amount) (hnat : vt.isNative = true) (hfp : 0 < e.fee)
    (hc1 : vt.amount - e.fee ≤ esc.lamports + vaultT.lamports)
    (hc2 : payee.lamports + (vt.amount - e.fee) ≤ u64Max)
    (hc3 : e.fee ≤ esc.lamports + vaultT.lamports - (vt.amount - e.fee))
    (hc4 : feeT.lamports + e.fee ≤ u64Max) :
    process_settlement (auth :: payee :: feeT :: vaultT :: esc :: fp :: tp :: vp :: rest)
      pid = Except.ok
      { payeeTokenInfo := { payee with lamports := payee.lamports + (vt.amount - e.fee) },
        feeTokenInfo := { feeT with lamports := feeT.lamports + e.fee },
        vaultTokenInfo := { vaultT with lamports := 0, data := AccountData.raw [] },
        escrowInfo := { esc with
          lamports := esc.lamports + vaultT.lamports - (vt.amount - e.fee) - e.fee,
          data := AccountData.raw
            (Escrow.pack_into_slice { e with is_settled := true }) },
        feePayerInfo := fp,
        record := { e with is_settled := true } } := by
  have hblen : bytes.length = 211 := Escrow.unpack_from_slice_length bytes e hdec
  have hfee' : ¬ e.fee > vt.amount := by omega
  simp [process_settlement, next_account_info, assert_signer, hsig, assert_owned_by,
    hownV, TokenAccount.unpack, hvd, hvinit, Escrow.unpackData, hed, Escrow.unpack,
    Escrow.unpack_unchecked, hdec, hinit, hnc, hns, assert_account_key, hk1, hk2, hk3,
    hk4, hk5, hk6, hfee', hnat, hfp, ok_or, checkedSub, checkedAdd, hfee, hc1, hc2,
    hc3, hc4, tokenCloseAccount, finishSettle, Escrow.packData, Escrow.packBytes,
    hblen, Escrow.LEN]

theorem settle_eval_native_ok_nofee (pid : Pubkey) (e : Escrow) (bytes : List Nat)
    (vt : TokenAccount) (auth payee feeT vaultT esc fp tp vp : AccountInfo)
    (rest : List AccountInfo)
    (hsig : auth.isSigner = true)
    (hownV : vaultT.owner = splTokenId)
    (hvd : vaultT.data = AccountData.token vt)
    (hvinit : vt.isInitialized = true)
    (hed : esc.data = AccountData.raw bytes)
    (hdec : Escrow.unpack_from_slice bytes = Except.ok e)
    (hinit : e.is_initialized = true)
    (hnc : e.is_canceled = false) (hns : e.is_settled = false)
    (hk1 : auth.key = e.authority) (hk2 : payee.key = e.payee_token)
    (hk3 : feeT.key = e.fee_token) (hk4 : vaultT.key = e.vault_token)
    (hk5 : tp.key = splTokenId) (hk6 : vp.key = (find_program_authority pid).1)
    (hf0 : e.fee = 0) (hnat : vt.isNative = true)
    (hc1 : vt.amount ≤ esc.lamports + vaultT.lamports)
    (hc2 : payee.lamports + vt.amount ≤ u64Max) :
    process_settlement (auth :: payee :: feeT :: vaultT :: esc :: fp :: tp :: vp :: rest)
      pid = Except.ok
      { payeeTokenInfo := { payee with lamports := payee.lamports + vt.amount },
        feeTokenInfo := feeT,
        vaultTokenInfo := { vaultT with lamports := 0, data := AccountData.raw [] },
        escrowInfo := { esc with
          lamports := esc.lamports + vaultT.lamports - vt.amount,
          data := AccountData.raw
            (Escrow.pack_into_slice { e with is_settled := true }) },
        feePayerInfo := fp,
        record := { e with is_settled := true } } := by
  have hblen : bytes.length = 211 := Escrow.unpack_from_slice_length bytes e hdec
  have hfee' : ¬ e.fee > vt.amount := by omega
  simp [process_settlement, next_account_info, assert_signer, hsig, assert_owned_by,
    hownV, TokenAccount.unpack, hvd, hvinit, Escrow.unpackData, hed, Escrow.unpack,
    Escrow.unpack_unchecked, hdec, hinit, hnc, hns, assert_account_key, hk1, hk2, hk3,
    hk4, hk5, hk6, hfee', hf0, hnat, ok_or, checkedSub, checkedAdd, hc1, hc2,
    tokenCloseAccount, finishSettle, Escrow.packData, Escrow.packBytes, hblen,
    Escrow.LEN]

theorem settle_eval_native_overflow (pid : Pubkey) (e : Escrow) (bytes : List Nat)
    (vt : TokenAccount) (auth payee feeT vaultT esc fp tp vp : AccountInfo)
    (rest : List AccountInfo)
    (hsig : auth.isSigner = true)
    (hownV : vaultT.owner = splTokenId)
    (hvd : vaultT.data = AccountData.token vt)
    (hvinit : vt.isInitialized = true)
    (hed : esc.data = AccountData.raw bytes)
    (hdec : Escrow.unpack_from_slice bytes = Except.ok e)
    (hinit : e.is_initialized = true)
    (hnc : e.is_canceled = false) (hns : e.is_settled = false)
    (hk1 : auth.key = e.authority) (hk2 : payee.key = e.payee_token)
    (hk3 : feeT.key = e.fee_token) (hk4 : vaultT.key = e.vault_token)
    (hk5 : tp.key = splTokenId) (hk6 : vp.key = (find_program_authority pid).1)
    (hfee : e.fee ≤ vt.amount) (hnat : vt.isNative = true)
    (hbad : ¬ vt.amount - e.fee ≤ esc.lamports + vaultT.lamports ∨
      (vt.amount - e.fee ≤ esc.lamports + vaultT.lamports ∧
        ¬ payee.lamports + (vt.amount - e.fee) ≤ u64Max) ∨
      (vt.amount - e.fee ≤ esc.lamports + vaultT.lamports ∧
        payee.lamports + (vt.amount - e.fee) ≤ u64Max ∧ 0 < e.fee ∧
        ¬ e.fee ≤ esc.lamports + vaultT.lamports - (vt.amount - e.fee)) ∨
      (vt.amount - e.fee ≤ esc.lamports + vaultT.lamports ∧
        payee.lamports + (vt.amount - e.fee) ≤ u64Max ∧ 0 < e.fee ∧
        e.fee ≤ esc.lamports + vaultT.lamports - (vt.amount - e.fee) ∧
        ¬ feeT.lamports + e.fee ≤ u64Max)) :
    process_settlement (auth :: payee :: feeT :: vaultT :: esc :: fp :: tp :: vp :: rest)
      pid = Except.error ProgErr.AmountOverflow := by
  have hfee' : ¬ e.fee > vt.amount := by omega
  rcases hbad with h1 | ⟨h1, h2⟩ | ⟨h1, h2, h3, h4⟩ | ⟨h1, h2, h3, h4, h5⟩
  · simp [process_settlement, next_account_info, assert_signer, hsig, assert_owned_by,
      hownV, TokenAccount.unpack, hvd, hvinit, Escrow.unpackData, hed, Escrow.unpack,
      Escrow.unpack_unchecked, hdec, hinit, hnc, hns, assert_account_key, hk1, hk2,
      hk3, hk4, hk5, hk6, hfee', hnat, ok_or, checkedSub, checkedAdd, hfee,
      tokenCloseAccount, h1]
  · simp [process_settlement, next_account_info, assert_signer, hsig, assert_owned_by,
      hownV, TokenAccount.unpack, hvd, hvinit, Escrow.unpackData, hed, Escrow.unpack,
      Escrow.unpack_unchecked, hdec, hinit, hnc, hns, assert_account_key, hk1, hk2,
      hk3, hk4, hk5, hk6, hfee', hnat, ok_or, checkedSub, checkedAdd, hfee,
      tokenCloseAccount, h1, h2]
  · simp [process_settlement, next_account_info, assert_signer, hsig, assert_owned_by,
      hownV, TokenAccount.unpack, hvd, hvinit, Escrow.unpackData, hed, Escrow.unpack,
      Escrow.unpack_unchecked, hdec, hinit, hnc, hns, assert_account_key, hk1, hk2,
      hk3, hk4, hk5, hk6, hfee', hnat, ok_or, checkedSub, checkedAdd, hfee,
      tokenCloseAccount, h1, h2, h3, h4]
  · simp [process_settlement, next_account_info, assert_signer, hsig, assert_owned_by,
      hownV, TokenAccount.unpack, hvd, hvinit, Escrow.unpackData, hed, Escrow.unpack,
      Escrow.unpack_unchecked, hdec, hinit, hnc, hns, assert_account_key, hk1, hk2,
      hk3, hk4, hk5, hk6, hfee', hnat, ok_or, checkedSub, checkedAdd, hfee,
      tokenCloseAccount, h1, h2, h3, h4, h5]

theorem settle_eval_token_ok_fee (pid : Pubkey) (e : Escrow) (bytes : List Nat)
    (vt pt ft : TokenAccount) (auth payee feeT vaultT esc fp tp vp : AccountInfo)
    (rest : List AccountInfo)
    (hsig : auth.isSigner = true)
    (hownV : vaultT.owner = splTokenId)
    (hvd : vaultT.data = AccountData.token vt)
    (hvinit : vt.isInitialized = true)
    (hed : esc.data = AccountData.raw bytes)
    (hdec : Escrow.unpack_from_slice bytes = Except.ok e)
    (hinit : e.is_initialized = true)
    (hnc : e.is_canceled = false) (hns : e.is_settled = false)
    (hk1 : auth.key = e.authority) (hk2 : payee.key = e.payee_token)
    (hk3 : feeT.key = e.fee_token) (hk4 : vaultT.key = e.vault_token)
    (hk5 : tp.key = splTokenId) (hk6 : vp.key = (find_program_authority pid).1)
    (hfee : e.fee ≤ vt.amount) (hnn : vt.isNative = false) (hfp : 0 < e.fee)
    (hpd : payee.data = AccountData.token pt)
    (hfd : feeT.data = AccountData.token ft) :
    process_settlement (auth :: payee :: feeT :: vaultT :: esc :: fp :: tp :: vp :: rest)
      pid = Except.ok
      { payeeTokenInfo := { payee with
          data := AccountData.token { pt with amount := pt.amount + (vt.amount - e.fee) } },
        feeTokenInfo := { feeT with
          data := AccountData.token { ft with amount := ft.amount + e.fee } },
        vaultTokenInfo := { vaultT with lamports := 0, data := AccountData.raw [] },
        escrowInfo := { esc with
          data := AccountData.raw
            (Escrow.pack_into_slice { e with is_settled := true }) },
        feePayerInfo := { fp with lamports := fp.lamports + vaultT.lamports },
        record := { e with is_settled := true } } := by
  have hblen : bytes.length = 211 := Escrow.unpack_from_slice_length bytes e hdec
  have hfee' : ¬ e.fee > vt.amount := by omega
  simp [process_settlement, next_account_info, assert_signer, hsig, assert_owned_by,
    hownV, TokenAccount.unpack, hvd, hvinit, Escrow.unpackData, hed, Escrow.unpack,
    Escrow.unpack_unchecked, hdec, hinit, hnc, hns, assert_account_key, hk1, hk2, hk3,
    hk4, hk5, hk6, hfee', hnn, hfp, ok_or, checkedSub, checkedAdd, hfee,
    tokenTransfer, hpd, hfd, tokenCloseAccount, finishSettle, Escrow.packData,
    Escrow.packBytes, hblen, Escrow.LEN]

theorem settle_eval_token_ok_nofee (pid : Pubkey) (e : Escrow) (bytes : List Nat)
    (vt pt : TokenAccount) (auth payee feeT vaultT esc fp tp vp : AccountInfo)
    (rest : List AccountInfo)
    (hsig : auth.isSigner = true)
    (hownV : vaultT.owner = splTokenId)
    (hvd : vaultT.data = AccountData.token vt)
    (hvinit : vt.isInitialized = true)
    (hed : esc.data = AccountData.raw bytes)
    (hdec : Escrow.unpack_from_slice bytes = Except.ok e)
    (hinit : e.is_initialized = true)
    (hnc : e.is_canceled = false) (hns : e.is_settled = false)
    (hk1 : auth.key = e.authority) (hk2 : payee.key = e.payee_token)
    (hk3 : feeT.key = e.fee_token) (hk4 : vaultT.key = e.vault_token)
    (hk5 : tp.key = splTokenId) (hk6 : vp.key = (find_program_authority pid).1)
    (hf0 : e.fee = 0) (hnn : vt.isNative = false)
    (hpd : payee.data = AccountData.token pt) :
    process_settlement (auth :: payee :: feeT :: vaultT :: esc :: fp :: tp :: vp :: rest)
      pid = Except.ok
      { payeeTokenInfo := { payee with
          data := AccountData.token { pt with amount := pt.amount + vt.amount } },
        feeTokenInfo := feeT,
        vaultTokenInfo := { vaultT with lamports := 0, data := AccountData.raw [] },
        escrowInfo := { esc with
          data := AccountData.raw
            (Escrow.pack_into_slice { e with is_settled := true }) },
        feePayerInfo := { fp with lamports := fp.lamports + vaultT.lamports },
        record := { e with is_settled := true } } := by
  have hblen : bytes.length = 211 := Escrow.unpack_from_slice_length bytes e hdec
  have hfee' : ¬ e.fee > vt.amount := by omega
  simp [process_settlement, next_account_info, assert_signer, hsig, assert_owned_by,
    hownV, TokenAccount.unpack, hvd, hvinit, Escrow.unpackData, hed, Escrow.unpack,
    Escrow.unpack_unchecked, hdec, hinit, hnc, hns, assert_account_key, hk1, hk2, hk3,
    hk4, hk5, hk6, hfee', hf0, hnn, ok_or, checkedSub, checkedAdd, tokenTransfer, hpd,
    tokenCloseAccount, finishSettle, Escrow.packData, Escrow.packBytes, hblen,
    Escrow.LEN]

/-- C1: For every Settle invocation on an open, initialized escrow record
with recorded fee f and a vault whose current balance is b: if f > b the
transition fails with FeeOverflow; otherwise the payout is computed as
b - f with checked (non-wrapping) arithmetic, the payee's balance increases
by exactly amount - fee (b - f in general, which equals amount - fee when
the vault balance equals the recorded amount) and, when fee > 0, the fee
recipient's balance increases by exactly fee, with no rounding, and any
checked subtraction/addition failure anywhere in the payout path fails
with AmountOverflow. -/
theorem settle_payout_arithmetic (pid : Pubkey) (e : Escrow) (bytes : List Nat)
    (vt pt ft : TokenAccount) (auth payee feeT vaultT esc fp tp vp : AccountInfo)
    (rest : List AccountInfo)
    (hsig : auth.isSigner = true)
    (hownV : vaultT.owner = splTokenId)
    (hvd : vaultT.data = AccountData.token vt)
    (hvinit : vt.isInitialized = true)
    (hed : esc.data = AccountData.raw bytes)
    (hdec : Escrow.unpack_from_slice bytes = Except.ok e)
    (hinit : e.is_initialized = true)
    (hnc : e.is_canceled = false) (hns : e.is_settled = false)
    (hk1 : auth.key = e.authority) (hk2 : payee.key = e.payee_token)
    (hk3 : feeT.key = e.fee_token) (hk4 : vaultT.key = e.vault_token)
    (hk5 : tp.key = splTokenId) (hk6 : vp.key = (find_program_authority pid).1) :
    (e.fee > vt.amount →
      process_settlement
        (auth :: payee :: feeT :: vaultT :: esc :: fp :: tp :: vp :: rest) pid =
        Except.error ProgErr.FeeOverflow) ∧
    (e.fee ≤ vt.amount → vt.isNative = true → 0 < e.fee →
      vt.amount - e.fee ≤ esc.lamports + vaultT.lamports →
      payee.lamports + (vt.amount - e.fee) ≤ u64Max →
      e.fee ≤ esc.lamports + vaultT.lamports - (vt.amount - e.fee) →
      feeT.lamports + e.fee ≤ u64Max →
      ∃ eff, process_settlement
          (auth :: payee :: feeT :: vaultT :: esc :: fp :: tp :: vp :: rest) pid =
          Except.ok eff ∧
        eff.payeeTokenInfo.lamports = payee.lamports + (vt.amount - e.fee) ∧
        eff.feeTokenInfo.lamports = feeT.lamports + e.fee ∧
        eff.record = { e with is_settled := true } ∧
        (vt.amount = e.amount →
          eff.payeeTokenInfo.lamports = payee.lamports + (e.amount - e.fee))) ∧
    (e.fee = 0 → vt.isNative = true →
      vt.amount ≤ esc.lamports + vaultT.lamports →
      payee.lamports + vt.amount ≤ u64Max →
      ∃ eff, process_settlement
          (auth :: payee :: feeT :: vaultT :: esc :: fp :: tp :: vp :: rest) pid =
          Except.ok eff ∧
        eff.payeeTokenInfo.lamports = payee.lamports + vt.amount ∧
        eff.feeTokenInfo = feeT ∧
        eff.record = { e with is_settled := true }) ∧
    (e.fee ≤ vt.amount → vt.isNative = true →
      (¬ vt.amount - e.fee ≤ esc.lamports + vaultT.lamports ∨
        (vt.amount - e.fee ≤ esc.lamports + vaultT.lamports ∧
          ¬ payee.lamports + (vt.amount - e.fee) ≤ u64Max) ∨
        (vt.amount - e.fee ≤ esc.lamports + vaultT.lamports ∧
          payee.lamports + (vt.amount - e.fee) ≤ u64Max ∧ 0 < e.fee ∧
          ¬ e.fee ≤ esc.lamports + vaultT.lamports - (vt.amount - e.fee)) ∨
        (vt.amount - e.fee ≤ esc.lamports + vaultT.lamports ∧
          payee.lamports + (vt.amount - e.fee) ≤ u64Max ∧ 0 < e.fee ∧
          e.fee ≤ esc.lamports + vaultT.lamports - (vt.amount - e.fee) ∧
          ¬ feeT.lamports + e.fee ≤ u64Max)) →
      process_settlement
        (auth :: payee :: feeT :: vaultT :: esc :: fp :: tp :: vp :: rest) pid =
        Except.error ProgErr.AmountOverflow) ∧
    (e.fee ≤ vt.amount → vt.isNative = false → 0 < e.fee →
      payee.data = AccountData.token pt → feeT.data = AccountData.token ft →
      ∃ eff, process_settlement
          (auth :: payee :: feeT :: vaultT :: esc :: fp :: tp :: vp :: rest) pid =
          Except.ok eff ∧
        eff.payeeTokenInfo.data =
          AccountData.token { pt with amount := pt.amount + (vt.amount - e.fee) } ∧
        eff.feeTokenInfo.data =
          AccountData.token { ft with amount := ft.amount + e.fee } ∧
        eff.record = { e with is_settled := true }) ∧
    (e.fee = 0 → vt.isNative = false → payee.data = AccountData.token pt →
      ∃ eff, process_settlement
          (auth :: payee :: feeT :: vaultT :: esc :: fp :: tp :: vp :: rest) pid =
          Except.ok eff ∧
        eff.payeeTokenInfo.data =
          AccountData.token { pt with amount := pt.amount + vt.amount } ∧
        eff.feeTokenInfo = feeT ∧
        eff.record = { e with is_settled := true }) := by
  refine ⟨?_, ?_, ?_, ?_, ?_, ?_⟩
  · intro hfee
    exact settle_eval_fee_overflow pid e bytes vt auth payee feeT vaultT esc fp tp vp
      rest hsig hownV hvd hvinit hed hdec hinit hnc hns hk1 hk2 hk3 hk4 hk5 hk6 hfee
  · intro hfee hnat hfp hc1 hc2 hc3 hc4
    refine ⟨_, settle_eval_native_ok_fee pid e bytes vt auth payee feeT vaultT esc fp
      tp vp rest hsig hownV hvd hvinit hed hdec hinit hnc hns hk1 hk2 hk3 hk4 hk5 hk6
      hfee hnat hfp hc1 hc2 hc3 hc4, rfl, rfl, rfl, ?_⟩
    intro hba
    rw [← hba]
  · intro hf0 hnat hc1 hc2
    exact ⟨_, settle_eval_native_ok_nofee pid e bytes vt auth payee feeT vaultT esc fp
      tp vp rest hsig hownV hvd hvinit hed hdec hinit hnc hns hk1 hk2 hk3 hk4 hk5 hk6
      hf0 hnat hc1 hc2, rfl, rfl, rfl⟩
  · intro hfee hnat hbad
    exact settle_eval_native_overflow pid e bytes vt auth payee feeT vaultT esc fp tp
      vp rest hsig hownV hvd hvinit hed hdec hinit hnc hns hk1 hk2 hk3 hk4 hk5 hk6
      hfee hnat hbad
  · intro hfee hnn hfp hpd hfd
    exact ⟨_, settle_eval_token_ok_fee pid e bytes vt pt ft auth payee feeT vaultT esc
      fp tp vp rest hsig hownV hvd hvinit hed hdec hinit hnc hns hk1 hk2 hk3 hk4 hk5
      hk6 hfee hnn hfp hpd hfd, rfl, rfl, rfl⟩
  · intro hf0 hnn hpd
    exact ⟨_, settle_eval_token_ok_nofee pid e bytes vt pt auth payee feeT vaultT esc
      fp tp vp rest hsig hownV hvd hvinit hed hdec hinit hnc hns hk1 hk2 hk3 hk4 hk5
      hk6 hf0 hnn hpd, rfl, rfl, rfl⟩

theorem settle_payout_arithmetic_witness :
    ∃ eff, process_settlement
        [wAuth, wPayee, wFee, wVaultTok, wEsc, wFeePayer, wTokProg, wVaultPda] wPid =
        Except.ok eff ∧
      eff.payeeTokenInfo.lamports = wPayee.lamports + (wVaultNative.amount - wE.fee) ∧
      eff.feeTokenInfo.lamports = wFee.lamports + wE.fee ∧
      eff.record = { wE with is_settled := true } ∧
      (wVaultNative.amount = wE.amount →
        eff.payeeTokenInfo.lamports = wPayee.lamports + (wE.amount - wE.fee)) :=
  (settle_payout_arithmetic wPid wE wBytes wVaultNative wVaultNative wVaultNative
    wAuth wPayee wFee wVaultTok wEsc wFeePayer wTokProg wVaultPda [] rfl rfl rfl rfl
    rfl rfl rfl rfl rfl rfl rfl rfl rfl rfl rfl).2.1 (by decide) rfl (by decide)
    (by decide) (by decide) (by decide) (by decide)

theorem cancel_eval_native_ok (pid : Pubkey) (e : Escrow) (bytes : List Nat)
    (vt : TokenAccount) (auth esc payerT fp vaultT tpX vp : AccountInfo)
    (rest : List AccountInfo)
    (hsig : auth.isSigner = true)
    (hvd : vaultT.data = AccountData.token vt)
    (hvinit : vt.isInitialized = true)
    (hed : esc.data = AccountData.raw bytes)
    (hdec : Escrow.unpack_from_slice bytes = Except.ok e)
    (hinit : e.is_initialized = true)
    (hnc : e.is_canceled = false) (hns : e.is_settled = false)
    (hk1 : payerT.key = e.payer_token) (hk2 : auth.key = e.authority)
    (hk3 : vaultT.key = e.vault_token) (hk4 : vp.key = (find_program_authority pid).1)
    (hnat : vt.isNative = true)
    (hc1 : vt.amount ≤ esc.lamports + vaultT.lamports)
    (hc2 : payerT.lamports + vt.amount ≤ u64Max) :
    process_cancel (auth :: esc :: payerT :: fp :: vaultT :: tpX :: vp :: rest) pid =
      Except.ok
      { payerTokenInfo := { payerT with lamports := payerT.lamports + vt.amount },
        vaultTokenInfo := { vaultT with lamports := 0, data := AccountData.raw [] },
        escrowInfo := { esc with
          lamports := esc.lamports + vaultT.lamports - vt.amount,
          data := AccountData.raw
            (Escrow.pack_into_slice { e with is_canceled := true }) },
        feePayerInfo := fp,
        record := { e with is_canceled := true } } := by
  have hblen : bytes.length = 211 := Escrow.unpack_from_slice_length bytes e hdec
  simp [process_cancel, next_account_info, assert_signer, hsig, TokenAccount.unpack,
    hvd, hvinit, Escrow.unpackData, hed, Escrow.unpack, Escrow.unpack_unchecked, hdec,
    hinit, hnc, hns, assert_account_key, hk1, hk2, hk3, hk4, hnat, ok_or, checkedSub,
    checkedAdd, hc1, hc2, tokenCloseAccount, finishCancel, Escrow.packData,
    Escrow.packBytes, hblen, Escrow.LEN]

theorem cancel_eval_token_ok (pid : Pubkey) (e : Escrow) (bytes : List Nat)
    (vt pt : TokenAccount) (auth esc payerT fp vaultT tpX vp : AccountInfo)
    (rest : List AccountInfo)
    (hsig : auth.isSigner = true)
    (hvd : vaultT.data = AccountData.token vt)
    (hvinit : vt.isInitialized = true)
    (hed : esc.data = AccountData.raw bytes)
    (hdec : Escrow.unpack_from_slice bytes = Except.ok e)
    (hinit : e.is_initialized = true)
    (hnc : e.is_canceled = false) (hns : e.is_settled = false)
    (hk1 : payerT.key = e.payer_token) (hk2 : auth.key = e.authority)
    (hk3 : vaultT.key = e.vault_token) (hk4 : vp.key = (find_program_authority pid).1)
    (hnn : vt.isNative = false)
    (hpd : payerT.data = AccountData.token pt) :
    process_cancel (auth :: esc :: payerT :: fp :: vaultT :: tpX :: vp :: rest) pid =
      Except.ok
      { payerTokenInfo := { payerT with
          data := AccountData.token { pt with amount := pt.amount + vt.amount } },
        vaultTokenInfo := { vaultT with lamports := 0, data := AccountData.raw [] },
        escrowInfo := { esc with
          data := AccountData.raw
            (Escrow.pack_into_slice { e with is_canceled := true }) },
        feePayerInfo := { fp with lamports := fp.lamports + vaultT.lamports },
        record := { e with is_canceled := true } } := by
  have hblen : bytes.length = 211 := Escrow.unpack_from_slice_length bytes e hdec
  simp [process_cancel, next_account_info, assert_signer, hsig, TokenAccount.unpack,
    hvd, hvinit, Escrow.unpackData, hed, Escrow.unpack, Escrow.unpack_unchecked, hdec,
    hinit, hnc, hns, assert_account_key, hk1, hk2, hk3, hk4, hnn, tokenTransfer, hpd,
    tokenCloseAccount, finishCancel, Escrow.packData, Escrow.packBytes, hblen,
    Escrow.LEN]

/-- Fixture vault token account whose owner is not the token program. -/
def wVaultTokBadOwner : AccountInfo := { wVaultTok with owner := wPk 31 }

/-- C2 counterexample: the claim says Cancel performs the same
authorization and state checks as Settle, but Cancel never checks that the
vault token account is owned by the token program: on this concrete open,
initialized escrow state whose vault account has a foreign owner, Cancel
succeeds while the mirrored Settle invocation on the same vault fails
Settle's assert_owned_by check with IllegalOwner. -/
theorem cancel_checks_differ_counterexample :
    (∃ eff, process_cancel
        [wAuth, wEsc, wPayerTok, wFeePayer, wVaultTokBadOwner, wTokProg, wVaultPda]
        wPid = Except.ok eff) ∧
    wVaultTokBadOwner.owner ≠ splTokenId ∧
    process_settlement
        [wAuth, wPayee, wFee, wVaultTokBadOwner, wEsc, wFeePayer, wTokProg, wVaultPda]
        wPid = Except.error ProgErr.IllegalOwner :=
  ⟨⟨_, rfl⟩, by decide, rfl⟩

/-- C2 (amended): For every Cancel invocation on an open, initialized
escrow record, Cancel performs Settle's authorization and record-state
checks (authority signer whose key matches the record, strict record
decode, not yet canceled or settled, payer-token/vault-token/derived
authority key checks) but omits Settle's vault-ownership and token-program
key checks; it returns the full current vault balance (no fee deducted) to
the payer's token account recorded in the escrow, never moves any funds to
the fee token account (no account written by Cancel carries the record's
fee token address when that address is distinct from Cancel's accounts),
then closes the vault and marks the record canceled=true. -/
theorem cancel_refunds_full_vault_balance (pid : Pubkey) (e : Escrow)
    (bytes : List Nat) (vt pt : TokenAccount)
    (auth esc payerT fp vaultT tpX vp : AccountInfo) (rest : List AccountInfo)
    (hsig : auth.isSigner = true)
    (hvd : vaultT.data = AccountData.token vt)
    (hvinit : vt.isInitialized = true)
    (hed : esc.data = AccountData.raw bytes)
    (hdec : Escrow.unpack_from_slice bytes = Except.ok e)
    (hinit : e.is_initialized = true)
    (hnc : e.is_canceled = false) (hns : e.is_settled = false)
    (hk1 : payerT.key = e.payer_token) (hk2 : auth.key = e.authority)
    (hk3 : vaultT.key = e.vault_token)
    (hk4 : vp.key = (find_program_authority pid).1) :
    (vt.isNative = true →
      vt.amount ≤ esc.lamports + vaultT.lamports →
      payerT.lamports + vt.amount ≤ u64Max →
      ∃ eff, process_cancel (auth :: esc :: payerT :: fp :: vaultT :: tpX :: vp :: rest)
          pid = Except.ok eff ∧
        eff.payerTokenInfo.lamports = payerT.lamports + vt.amount ∧
        eff.record = { e with is_canceled := true } ∧
        eff.vaultTokenInfo.lamports = 0 ∧
        eff.vaultTokenInfo.data = AccountData.raw [] ∧
        eff.feePayerInfo = fp ∧
        eff.payerTokenInfo.key = e.payer_token ∧
        eff.vaultTokenInfo.key = e.vault_token ∧
        eff.escrowInfo.key = esc.key ∧
        eff.feePayerInfo.key = fp.key) ∧
    (vt.isNative = false → payerT.data = AccountData.token pt →
      ∃ eff, process_cancel (auth :: esc :: payerT :: fp :: vaultT :: tpX :: vp :: rest)
          pid = Except.ok eff ∧
        eff.payerTokenInfo.data =
          AccountData.token { pt with amount := pt.amount + vt.amount } ∧
        eff.record = { e with is_canceled := true } ∧
        eff.vaultTokenInfo.lamports = 0 ∧
        eff.vaultTokenInfo.data = AccountData.raw [] ∧
        eff.feePayerInfo.lamports = fp.lamports + vaultT.lamports ∧
        eff.payerTokenInfo.key = e.payer_token ∧
        eff.vaultTokenInfo.key = e.vault_token ∧
        eff.escrowInfo.key = esc.key ∧
        eff.feePayerInfo.key = fp.key) := by
  constructor
  · intro hnat hc1 hc2
    refine ⟨_, cancel_eval_native_ok pid e bytes vt auth esc payerT fp vaultT tpX vp
      rest hsig hvd hvinit hed hdec hinit hnc hns hk1 hk2 hk3 hk4 hnat hc1 hc2,
      rfl, rfl, rfl, rfl, rfl, ?_, ?_, rfl, rfl⟩
    · exact hk1
    · exact hk3
  · intro hnn hpd
    refine ⟨_, cancel_eval_token_ok pid e bytes vt pt auth esc payerT fp vaultT tpX vp
      rest hsig hvd hvinit hed hdec hinit hnc hns hk1 hk2 hk3 hk4 hnn hpd,
      rfl, rfl, rfl, rfl, rfl, ?_, ?_, rfl, rfl⟩
    · exact hk1
    · exact hk3

theorem cancel_refunds_full_vault_balance_witness :
    ∃ eff, process_cancel
        [wAuth, wEsc, wPayerTok, wFeePayer, wVaultTok, wTokProg, wVaultPda] wPid =
        Except.ok eff ∧
      eff.payerTokenInfo.lamports = wPayerTok.lamports + wVaultNative.amount ∧
      eff.record = { wE with is_canceled := true } ∧
      eff.vaultTokenInfo.lamports = 0 ∧
      eff.vaultTokenInfo.data = AccountData.raw [] ∧
      eff.feePayerInfo = wFeePayer ∧
      eff.payerTokenInfo.key = wE.payer_token ∧
      eff.vaultTokenInfo.key = wE.vault_token ∧
      eff.escrowInfo.key = wEsc.key ∧
      eff.feePayerInfo.key = wFeePayer.key :=
  (cancel_refunds_full_vault_balance wPid wE wBytes wVaultNative wVaultNative wAuth
    wEsc wPayerTok wFeePayer wVaultTok wTokProg wVaultPda [] rfl rfl rfl rfl rfl rfl
    rfl rfl rfl rfl rfl rfl).1 rfl (by decide) (by decide)

/-- The account-shape checks Init runs between the amount check and the
rent check (src/processor.rs lines 83-92): for a native vault the payer
token account must carry the payer's key; for a non-native vault the
payer/payee/fee token accounts must be owned by the token program and hold
initialized token state. -/
def initTokenAccountChecks (vt : TokenAccount)
    (payer payerT payeeT feeT : AccountInfo) : Prop :=
  (vt.isNative = true ∧ payerT.key = payer.key) ∨
  (vt.isNative = false ∧ payerT.owner = splTokenId ∧ payeeT.owner = splTokenId ∧
    feeT.owner = splTokenId ∧
    (∃ pt, payerT.data = AccountData.token pt ∧ pt.isInitialized = true) ∧
    (∃ pe, payeeT.data = AccountData.token pe ∧ pe.isInitialized = true) ∧
    (∃ ft, feeT.data = AccountData.token ft ∧ ft.isInitialized = true))

theorem init_eval_mismatch (pid : Pubkey) (amount fee : Nat) (vt : TokenAccount)
    (payer vaultT auth esc payerT payeeT feeT rentA tp : AccountInfo)
    (rest : List AccountInfo)
    (hsigP : payer.isSigner = true)
    (hownV : vaultT.owner = splTokenId)
    (hvd : vaultT.data = AccountData.token vt)
    (hvinit : vt.isInitialized = true)
    (hne : vt.amount ≠ amount) :
    process_init_escrow
      (payer :: vaultT :: auth :: esc :: payerT :: payeeT :: feeT :: rentA :: tp :: rest)
      amount fee pid = Except.error ProgErr.ExpectedAmountMismatch := by
  simp [process_init_escrow, next_account_info, assert_signer, hsigP, assert_owned_by,
    hownV, TokenAccount.unpack, hvd, hvinit, hne]

theorem init_eval_already_initialized (pid : Pubkey) (amount fee : Nat)
    (e0 : Escrow) (bytes : List Nat) (r : Rent) (vt : TokenAccount)
    (payer vaultT auth esc payerT payeeT feeT rentA tp : AccountInfo)
    (rest : List AccountInfo)
    (hsigP : payer.isSigner = true)
    (hownV : vaultT.owner = splTokenId)
    (hvd : vaultT.data = AccountData.token vt)
    (hvinit : vt.isInitialized = true)
    (hamt : vt.amount = amount)
    (hsigA : auth.isSigner = true)
    (hbr : initTokenAccountChecks vt payer payerT payeeT feeT)
    (hrd : rentA.data = AccountData.rentSysvar r)
    (hed : esc.data = AccountData.raw bytes)
    (hre : r.isExempt esc.lamports bytes.length = true)
    (hdec0 : Escrow.unpack_from_slice bytes = Except.ok e0)
    (hinit0 : e0.is_initialized = true) :
    process_init_escrow
      (payer :: vaultT :: auth :: esc :: payerT :: payeeT :: feeT :: rentA :: tp :: rest)
      amount fee pid = Except.error ProgErr.AccountAlreadyInitialized := by
  rcases hbr with ⟨hnat, hpk⟩ |
    ⟨hnn, ho1, ho2, ho3, ⟨pt, hpd, hpi⟩, ⟨pe, hped, hpei⟩, ⟨ft, hfd, hfi⟩⟩
  · simp [process_init_escrow, next_account_info, assert_signer, hsigP, hsigA,
      assert_owned_by, hownV, TokenAccount.unpack, hvd, hvinit, hamt, hnat,
      assert_account_key, hpk, Rent.from_account_info, hrd, assert_rent_exempt, hed,
      AccountData.dataLen, hre, Escrow.unpackDataUnchecked, Escrow.unpack_unchecked,
      hdec0, hinit0]
  · simp [process_init_escrow, next_account_info, assert_signer, hsigP, hsigA,
      assert_owned_by, hownV, TokenAccount.unpack, hvd, hvinit, hamt, hnn, ho1, ho2,
      ho3, assert_initialized, hpd, hpi, hped, hpei, hfd, hfi, Rent.from_account_info,
      hrd, assert_rent_exempt, hed, AccountData.dataLen, hre,
      Escrow.unpackDataUnchecked, Escrow.unpack_unchecked, hdec0, hinit0]

theorem init_eval_fee_overflow (pid : Pubkey) (amount fee : Nat)
    (e0 : Escrow) (bytes : List Nat) (r : Rent) (vt : TokenAccount)
    (payer vaultT auth esc payerT payeeT feeT rentA tp : AccountInfo)
    (rest : List AccountInfo)
    (hsigP : payer.isSigner = true)
    (hownV : vaultT.owner = splTokenId)
    (hvd : vaultT.data = AccountData.token vt)
    (hvinit : vt.isInitialized = true)
    (hamt : vt.amount = amount)
    (hsigA : auth.isSigner = true)
    (hbr : initTokenAccountChecks vt payer payerT payeeT feeT)
    (hrd : rentA.data = AccountData.rentSysvar r)
    (hed : esc.data = AccountData.raw bytes)
    (hre : r.isExempt esc.lamports bytes.length = true)
    (hdec0 : Escrow.unpack_from_slice bytes = Except.ok e0)
    (hinit0 : e0.is_initialized = false)
    (hfee : fee > amount) :
    process_init_escrow
      (payer :: vaultT :: auth :: esc :: payerT :: payeeT :: feeT :: rentA :: tp :: rest)
      amount fee pid = Except.error ProgErr.FeeOverflow := by
  rcases hbr with ⟨hnat, hpk⟩ |
    ⟨hnn, ho1, ho2, ho3, ⟨pt, hpd, hpi⟩, ⟨pe, hped, hpei⟩, ⟨ft, hfd, hfi⟩⟩
  · simp [process_init_escrow, next_account_info, assert_signer, hsigP, hsigA,
      assert_owned_by, hownV, TokenAccount.unpack, hvd, hvinit, hamt, hnat,
      assert_account_key, hpk, Rent.from_account_info, hrd, assert_rent_exempt, hed,
      AccountData.dataLen, hre, Escrow.unpackDataUnchecked, Escrow.unpack_unchecked,
      hdec0, hinit0, hfee]
  · simp [process_init_escrow, next_account_info, assert_signer, hsigP, hsigA,
      assert_owned_by, hownV, TokenAccount.unpack, hvd, hvinit, hamt, hnn, ho1, ho2,
      ho3, assert_initialized, hpd, hpi, hped, hpei, hfd, hfi, Rent.from_account_info,
      hrd, assert_rent_exempt, hed, AccountData.dataLen, hre,
      Escrow.unpackDataUnchecked, Escrow.unpack_unchecked, hdec0, hinit0, hfee]

theorem init_eval_ok (pid : Pubkey) (amount fee : Nat)
    (e0 : Escrow) (bytes : List Nat) (r : Rent) (vt : TokenAccount)
    (payer vaultT auth esc payerT payeeT feeT rentA tp : AccountInfo)
    (rest : List AccountInfo)
    (hsigP : payer.isSigner = true)
    (hownV : vaultT.owner = splTokenId)
    (hvd : vaultT.data = AccountData.token vt)
    (hvinit : vt.isInitialized = true)
    (hamt : vt.amount = amount)
    (hsigA : auth.isSigner = true)
    (hbr : initTokenAccountChecks vt payer payerT payeeT feeT)
    (hrd : rentA.data = AccountData.rentSysvar r)
    (hed : esc.data = AccountData.raw bytes)
    (hre : r.isExempt esc.lamports bytes.length = true)
    (hdec0 : Escrow.unpack_from_slice bytes = Except.ok e0)
    (hinit0 : e0.is_initialized = false)
    (hfee : ¬ fee > amount)
    (hk : tp.key = splTokenId) :
    process_init_escrow
      (payer :: vaultT :: auth :: esc :: payerT :: payeeT :: feeT :: rentA :: tp :: rest)
      amount fee pid = Except.ok
      { escrowInfo := { esc with data := AccountData.raw (Escrow.pack_into_slice
          { is_initialized := true, is_settled := false, is_canceled := false,
            fee := fee, payer := payer.key, payer_token := payerT.key,
            payee_token := payeeT.key, vault_token := vaultT.key,
            fee_token := feeT.key, authority := auth.key, amount := amount }) },
        vaultTokenInfo := { vaultT with
          data := AccountData.token { vt with owner := (find_program_authority pid).1 } },
        record :=
          { is_initialized := true, is_settled := false, is_canceled := false,
            fee := fee, payer := payer.key, payer_token := payerT.key,
            payee_token := payeeT.key, vault_token := vaultT.key,
            fee_token := feeT.key, authority := auth.key, amount := amount } } := by
  have hblen : bytes.length = 211 := Escrow.unpack_from_slice_length bytes e0 hdec0
  have hre' : r.isExempt esc.lamports 211 = true := by rw [← hblen]; exact hre
  rcases hbr with ⟨hnat, hpk⟩ |
    ⟨hnn, ho1, ho2, ho3, ⟨pt, hpd, hpi⟩, ⟨pe, hped, hpei⟩, ⟨ft, hfd, hfi⟩⟩
  · simp [process_init_escrow, next_account_info, assert_signer, hsigP, hsigA,
      assert_owned_by, hownV, TokenAccount.unpack, hvd, hvinit, hamt, hnat,
      assert_account_key, hpk, hk, Rent.from_account_info, hrd, assert_rent_exempt,
      hed, AccountData.dataLen, hre, hre', Escrow.unpackDataUnchecked,
      Escrow.unpack_unchecked, hdec0, hinit0, hfee, Escrow.packData, Escrow.packBytes,
      hblen, Escrow.LEN, tokenSetAuthority]
  · simp [process_init_escrow, next_account_info, assert_signer, hsigP, hsigA,
      assert_owned_by, hownV, TokenAccount.unpack, hvd, hvinit, hamt, hnn, ho1, ho2,
      ho3, assert_initialized, hpd, hpi, hped, hpei, hfd, hfi, assert_account_key, hk,
      Rent.from_account_info, hrd, assert_rent_exempt, hed, AccountData.dataLen, hre,
      hre', Escrow.unpackDataUnchecked, Escrow.unpack_unchecked, hdec0, hinit0, hfee,
      Escrow.packData, Escrow.packBytes, hblen, Escrow.LEN, tokenSetAuthority]

/-- C4: For every Init invocation: if fee > amount it fails with
FeeOverflow and no record is written; if the vault token account's
recorded balance differs from the declared amount it fails with
ExpectedAmountMismatch; if the escrow record is already initialized it
fails with AccountAlreadyInitialized. Each failure is an error outcome,
which carries no writes in this embedding (the runtime discards the
invocation atomically), so the escrow record is not mutated. The later
checks are reached once the earlier guards pass, which the corresponding
conjuncts hypothesize; the account-shape guards cover both the native and
the non-native vault branch via initTokenAccountChecks. -/
theorem init_error_cases (pid : Pubkey) (amount fee : Nat) (e0 : Escrow)
    (bytes : List Nat) (r : Rent) (vt : TokenAccount)
    (payer vaultT auth esc payerT payeeT feeT rentA tp : AccountInfo)
    (rest : List AccountInfo)
    (hsigP : payer.isSigner = true)
    (hownV : vaultT.owner = splTokenId)
    (hvd : vaultT.data = AccountData.token vt)
    (hvinit : vt.isInitialized = true) :
    (vt.amount ≠ amount →
      process_init_escrow
        (payer :: vaultT :: auth :: esc :: payerT :: payeeT :: feeT :: rentA :: tp :: rest)
        amount fee pid = Except.error ProgErr.ExpectedAmountMismatch) ∧
    (vt.amount = amount → auth.isSigner = true →
      initTokenAccountChecks vt payer payerT payeeT feeT →
      rentA.data = AccountData.rentSysvar r →
      esc.data = AccountData.raw bytes → r.isExempt esc.lamports bytes.length = true →
      Escrow.unpack_from_slice bytes = Except.ok e0 → e0.is_initialized = true →
      process_init_escrow
        (payer :: vaultT :: auth :: esc :: payerT :: payeeT :: feeT :: rentA :: tp :: rest)
        amount fee pid = Except.error ProgErr.AccountAlreadyInitialized) ∧
    (vt.amount = amount → auth.isSigner = true →
      initTokenAccountChecks vt payer payerT payeeT feeT →
      rentA.data = AccountData.rentSysvar r →
      esc.data = AccountData.raw bytes → r.isExempt esc.lamports bytes.length = true →
      Escrow.unpack_from_slice bytes = Except.ok e0 → e0.is_initialized = false →
      fee > amount →
      process_init_escrow
        (payer :: vaultT :: auth :: esc :: payerT :: payeeT :: feeT :: rentA :: tp :: rest)
        amount fee pid = Except.error ProgErr.FeeOverflow) := by
  refine ⟨?_, ?_, ?_⟩
  · intro hne
    exact init_eval_mismatch pid amount fee vt payer vaultT auth esc payerT payeeT
      feeT rentA tp rest hsigP hownV hvd hvinit hne
  · intro hamt hsigA hbr hrd hed hre hdec0 hinit0
    exact init_eval_already_initialized pid amount fee e0 bytes r vt payer vaultT auth
      esc payerT payeeT feeT rentA tp rest hsigP hownV hvd hvinit hamt hsigA hbr hrd
      hed hre hdec0 hinit0
  · intro hamt hsigA hbr hrd hed hre hdec0 hinit0 hfee
    exact init_eval_fee_overflow pid amount fee e0 bytes r vt payer vaultT auth esc
      payerT payeeT feeT rentA tp rest hsigP hownV hvd hvinit hamt hsigA hbr hrd hed
      hre hdec0 hinit0 hfee

/-- Fixture uninitialized (all-flags-false) escrow record. -/
def wEZero : Escrow := { wE with is_initialized := false }

/-- Serialized uninitialized fixture record. -/
def wBytesZero : List Nat := Escrow.pack_into_slice wEZero

/-- Fixture escrow account holding the uninitialized record. -/
def wEscFresh : AccountInfo := { wEsc with data := AccountData.raw wBytesZero }

/-- Fixture payer account (signer). -/
def wPayer : AccountInfo :=
  { key := wPk 8, isSigner := true, owner := wPk 0, lamports := 5,
    data := AccountData.raw [] }

/-- Fixture rent sysvar account whose exemption predicate always holds. -/
def wRent : AccountInfo :=
  { key := wPk 13, isSigner := false, owner := wPk 0, lamports := 0,
    data := AccountData.rentSysvar { isExempt := fun _ _ => true } }

/-- Fixture native vault holding 777 units for Init scenarios. -/
def wVaultInitTok : TokenAccount :=
  { amount := 777, owner := wPk 8, isNative := true, isInitialized := true }

/-- Fixture vault account info for Init scenarios. -/
def wVaultInit : AccountInfo := { wVaultTok with data := AccountData.token wVaultInitTok }

/-- Fixture payer token account whose key equals the payer's (native Init). -/
def wPayerTokN : AccountInfo := { wPayerTok with key := wPk 8 }

/-- Fixture non-native vault token state for Init scenarios. -/
def wVaultInitTokSpl : TokenAccount := { wVaultInitTok with isNative := false }

/-- Fixture non-native vault account info for Init scenarios. -/
def wVaultInitSpl : AccountInfo :=
  { wVaultTok with data := AccountData.token wVaultInitTokSpl }

/-- Fixture SPL token state held by the payer/payee/fee token accounts in
non-native Init scenarios. -/
def wSplTok : TokenAccount :=
  { amount := 11, owner := wPk 8, isNative := false, isInitialized := true }

/-- Fixture payer token account owned by the token program. -/
def wPayerTokSpl : AccountInfo :=
  { key := wPk 10, isSigner := false, owner := splTokenId, lamports := 40,
    data := AccountData.token wSplTok }

/-- Fixture payee token account owned by the token program. -/
def wPayeeTokSpl : AccountInfo :=
  { wPayee with owner := splTokenId, data := AccountData.token wSplTok }

/-- Fixture fee token account owned by the token program. -/
def wFeeTokSpl : AccountInfo :=
  { wFee with owner := splTokenId, data := AccountData.token wSplTok }

theorem init_error_cases_witness :
    process_init_escrow
      [wPayer, wVaultInit, wAuth, wEscFresh, wPayerTokN, wPayee, wFee, wRent, wTokProg]
      777 800 wPid = Except.error ProgErr.FeeOverflow ∧
    process_init_escrow
      [wPayer, wVaultInitSpl, wAuth, wEscFresh, wPayerTokSpl, wPayeeTokSpl,
        wFeeTokSpl, wRent, wTokProg]
      777 800 wPid = Except.error ProgErr.FeeOverflow :=
  ⟨(init_error_cases wPid 777 800 wEZero wBytesZero
      { isExempt := fun _ _ => true } wVaultInitTok wPayer wVaultInit wAuth wEscFresh
      wPayerTokN wPayee wFee wRent wTokProg [] rfl rfl rfl rfl).2.2 rfl rfl
      (Or.inl ⟨rfl, rfl⟩) rfl rfl rfl rfl rfl (by decide),
    (init_error_cases wPid 777 800 wEZero wBytesZero
      { isExempt := fun _ _ => true } wVaultInitTokSpl wPayer wVaultInitSpl wAuth
      wEscFresh wPayerTokSpl wPayeeTokSpl wFeeTokSpl wRent wTokProg [] rfl rfl rfl
      rfl).2.2 rfl rfl
      (Or.inr ⟨rfl, rfl, rfl, rfl, ⟨wSplTok, rfl, rfl⟩, ⟨wSplTok, rfl, rfl⟩,
        ⟨wSplTok, rfl, rfl⟩⟩) rfl rfl rfl rfl rfl (by decide)⟩

/-- C9: For every Settle, Cancel, or Close invocation whose escrow account
data decodes to a record with the initialized flag false, the operation
fails with UninitializedAccount (the strict record unpack used by these
three handlers rejects uninitialized records) before any fund movement or
record write (the error outcome carries no writes in this embedding);
only Init's unchecked decode variant accepts such a region. -/
theorem strict_unpack_rejects_uninitialized_record (pid : Pubkey) (e : Escrow)
    (bytes : List Nat)
    (hdec : Escrow.unpack_from_slice bytes = Except.ok e)
    (hinit : e.is_initialized = false) :
    (∀ (vt : TokenAccount) (auth payee feeT vaultT esc : AccountInfo)
        (rest : List AccountInfo),
      auth.isSigner = true → vaultT.owner = splTokenId →
      vaultT.data = AccountData.token vt → vt.isInitialized = true →
      esc.data = AccountData.raw bytes →
      process_settlement (auth :: payee :: feeT :: vaultT :: esc :: rest) pid =
        Except.error ProgErr.UninitializedAccount) ∧
    (∀ (vt : TokenAccount) (auth esc payerT fp vaultT : AccountInfo)
        (rest : List AccountInfo),
      auth.isSigner = true → vaultT.data = AccountData.token vt →
      vt.isInitialized = true → esc.data = AccountData.raw bytes →
      process_cancel (auth :: esc :: payerT :: fp :: vaultT :: rest) pid =
        Except.error ProgErr.UninitializedAccount) ∧
    (∀ (auth esc fp : AccountInfo) (rest : List AccountInfo),
      auth.isSigner = true → esc.owner = pid → esc.data = AccountData.raw bytes →
      process_close (auth :: esc :: fp :: rest) pid =
        Except.error ProgErr.UninitializedAccount) ∧
    Escrow.unpack bytes = Except.error ProgErr.UninitializedAccount ∧
    Escrow.unpack_unchecked bytes = Except.ok e := by
  refine ⟨?_, ?_, ?_, ?_, hdec⟩
  · intro vt auth payee feeT vaultT esc rest hsig hownV hvd hvinit hed
    simp [process_settlement, next_account_info, assert_signer, hsig, assert_owned_by,
      hownV, TokenAccount.unpack, hvd, hvinit, Escrow.unpackData, hed, Escrow.unpack,
      Escrow.unpack_unchecked, hdec, hinit]
  · intro vt auth esc payerT fp vaultT rest hsig hvd hvinit hed
    simp [process_cancel, next_account_info, assert_signer, hsig, TokenAccount.unpack,
      hvd, hvinit, Escrow.unpackData, hed, Escrow.unpack, Escrow.unpack_unchecked,
      hdec, hinit]
  · intro auth esc fp rest hsig hown hed
    simp [process_close, next_account_info, assert_signer, hsig, assert_owned_by,
      hown, Escrow.unpackData, hed, Escrow.unpack, Escrow.unpack_unchecked, hdec,
      hinit]
  · simp [Escrow.unpack, Escrow.unpack_unchecked, hdec, hinit]

theorem strict_unpack_rejects_uninitialized_record_witness :
    process_close [wAuth, wEscFresh, wFeePayer] wPid =
      Except.error ProgErr.UninitializedAccount :=
  (strict_unpack_rejects_uninitialized_record wPid wEZero wBytesZero rfl
    rfl).2.2.1 wAuth wEscFresh wFeePayer [] rfl rfl rfl

theorem cancel_eval_native_overflow (pid : Pubkey) (e : Escrow) (bytes : List Nat)
    (vt : TokenAccount) (auth esc payerT fp vaultT tpX vp : AccountInfo)
    (rest : List AccountInfo)
    (hsig : auth.isSigner = true)
    (hvd : vaultT.data = AccountData.token vt)
    (hvinit : vt.isInitialized = true)
    (hed : esc.data = AccountData.raw bytes)
    (hdec : Escrow.unpack_from_slice bytes = Except.ok e)
    (hinit : e.is_initialized = true)
    (hnc : e.is_canceled = false) (hns : e.is_settled = false)
    (hk1 : payerT.key = e.payer_token) (hk2 : auth.key = e.authority)
    (hk3 : vaultT.key = e.vault_token) (hk4 : vp.key = (find_program_authority pid).1)
    (hnat : vt.isNative = true)
    (hbad : ¬ vt.amount ≤ esc.lamports + vaultT.lamports ∨
      (vt.amount ≤ esc.lamports + vaultT.lamports ∧
        ¬ payerT.lamports + vt.amount ≤ u64Max)) :
    process_cancel (auth :: esc :: payerT :: fp :: vaultT :: tpX :: vp :: rest) pid =
      Except.error ProgErr.AmountOverflow := by
  rcases hbad with h1 | ⟨h1, h2⟩
  · simp [process_cancel, next_account_info, assert_signer, hsig, TokenAccount.unpack,
      hvd, hvinit, Escrow.unpackData, hed, Escrow.unpack, Escrow.unpack_unchecked,
      hdec, hinit, hnc, hns, assert_account_key, hk1, hk2, hk3, hk4, hnat, ok_or,
      checkedSub, checkedAdd, tokenCloseAccount, h1]
  · simp [process_cancel, next_account_info, assert_signer, hsig, TokenAccount.unpack,
      hvd, hvinit, Escrow.unpackData, hed, Escrow.unpack, Escrow.unpack_unchecked,
      hdec, hinit, hnc, hns, assert_account_key, hk1, hk2, hk3, hk4, hnat, ok_or,
      checkedSub, checkedAdd, tokenCloseAccount, h1, h2]

theorem settle_eval_token_badpayee (pid : Pubkey) (e : Escrow) (bytes : List Nat)
    (vt : TokenAccount) (auth payee feeT vaultT esc fp tp vp : AccountInfo)
    (rest : List AccountInfo)
    (hsig : auth.isSigner = true)
    (hownV : vaultT.owner = splTokenId)
    (hvd : vaultT.data = AccountData.token vt)
    (hvinit : vt.isInitialized = true)
    (hed : esc.data = AccountData.raw bytes)
    (hdec : Escrow.unpack_from_slice bytes = Except.ok e)
    (hinit : e.is_initialized = true)
    (hnc : e.is_canceled = false) (hns : e.is_settled = false)
    (hk1 : auth.key = e.authority) (hk2 : payee.key = e.payee_token)
    (hk3 : feeT.key = e.fee_token) (hk4 : vaultT.key = e.vault_token)
    (hk5 : tp.key = splTokenId) (hk6 : vp.key = (find_program_authority pid).1)
    (hfee : e.fee ≤ vt.amount) (hnn : vt.isNative = false)
    (hpd : ∀ t, payee.data ≠ AccountData.token t) :
    process_settlement (auth :: payee :: feeT :: vaultT :: esc :: fp :: tp :: vp :: rest)
      pid = Except.error ProgErr.InvalidAccountData := by
  have hfee' : ¬ e.fee > vt.amount := by omega
  cases hpdd : payee.data with
  | token t => exact absurd hpdd (hpd t)
  | raw bs =>
    simp [process_settlement, next_account_info, assert_signer, hsig, assert_owned_by,
      hownV, TokenAccount.unpack, hvd, hvinit, Escrow.unpackData, hed, Escrow.unpack,
      Escrow.unpack_unchecked, hdec, hinit, hnc, hns, assert_account_key, hk1, hk2,
      hk3, hk4, hk5, hk6, hfee', hnn, ok_or, checkedSub, hfee, tokenTransfer, hpdd]
  | rentSysvar r2 =>
    simp [process_settlement, next_account_info, assert_signer, hsig, assert_owned_by,
      hownV, TokenAccount.unpack, hvd, hvinit, Escrow.unpackData, hed, Escrow.unpack,
      Escrow.unpack_unchecked, hdec, hinit, hnc, hns, assert_account_key, hk1, hk2,
      hk3, hk4, hk5, hk6, hfee', hnn, ok_or, checkedSub, hfee, tokenTransfer, hpdd]

theorem settle_eval_token_badfee (pid : Pubkey) (e : Escrow) (bytes : List Nat)
    (vt pt : TokenAccount) (auth payee feeT vaultT esc fp tp vp : AccountInfo)
    (rest : List AccountInfo)
    (hsig : auth.isSigner = true)
    (hownV : vaultT.owner = splTokenId)
    (hvd : vaultT.data = AccountData.token vt)
    (hvinit : vt.isInitialized = true)
    (hed : esc.data = AccountData.raw bytes)
    (hdec : Escrow.unpack_from_slice bytes = Except.ok e)
    (hinit : e.is_initialized = true)
    (hnc : e.is_canceled = false) (hns : e.is_settled = false)
    (hk1 : auth.key = e.authority) (hk2 : payee.key = e.payee_token)
    (hk3 : feeT.key = e.fee_token) (hk4 : vaultT.key = e.vault_token)
    (hk5 : tp.key = splTokenId) (hk6 : vp.key = (find_program_authority pid).1)
    (hfee : e.fee ≤ vt.amount) (hnn : vt.isNative = false) (hfp : 0 < e.fee)
    (hpd : payee.data = AccountData.token pt)
    (hfd : ∀ t, feeT.data ≠ AccountData.token t) :
    process_settlement (auth :: payee :: feeT :: vaultT :: esc :: fp :: tp :: vp :: rest)
      pid = Except.error ProgErr.InvalidAccountData := by
  have hfee' : ¬ e.fee > vt.amount := by omega
  cases hfdd : feeT.data with
  | token t => exact absurd hfdd (hfd t)
  | raw bs =>
    simp [process_settlement, next_account_info, assert_signer, hsig, assert_owned_by,
      hownV, TokenAccount.unpack, hvd, hvinit, Escrow.unpackData, hed, Escrow.unpack,
      Escrow.unpack_unchecked, hdec, hinit, hnc, hns, assert_account_key, hk1, hk2,
      hk3, hk4, hk5, hk6, hfee', hnn, hfp, ok_or, checkedSub, hfee, tokenTransfer,
      hpd, hfdd]
  | rentSysvar r2 =>
    simp [process_settlement, next_account_info, assert_signer, hsig, assert_owned_by,
      hownV, TokenAccount.unpack, hvd, hvinit, Escrow.unpackData, hed, Escrow.unpack,
      Escrow.unpack_unchecked, hdec, hinit, hnc, hns, assert_account_key, hk1, hk2,
      hk3, hk4, hk5, hk6, hfee', hnn, hfp, ok_or, checkedSub, hfee, tokenTransfer,
      hpd, hfdd]

theorem cancel_eval_token_badpayer (pid : Pubkey) (e : Escrow) (bytes : List Nat)
    (vt : TokenAccount) (auth esc payerT fp vaultT tpX vp : AccountInfo)
    (rest : List AccountInfo)
    (hsig : auth.isSigner = true)
    (hvd : vaultT.data = AccountData.token vt)
    (hvinit : vt.isInitialized = true)
    (hed : esc.data = AccountData.raw bytes)
    (hdec : Escrow.unpack_from_slice bytes = Except.ok e)
    (hinit : e.is_initialized = true)
    (hnc : e.is_canceled = false) (hns : e.is_settled = false)
    (hk1 : payerT.key = e.payer_token) (hk2 : auth.key = e.authority)
    (hk3 : vaultT.key = e.vault_token) (hk4 : vp.key = (find_program_authority pid).1)
    (hnn : vt.isNative = false)
    (hpd : ∀ t, payerT.data ≠ AccountData.token t) :
    process_cancel (auth :: esc :: payerT :: fp :: vaultT :: tpX :: vp :: rest) pid =
      Except.error ProgErr.InvalidAccountData := by
  cases hpdd : payerT.data with
  | token t => exact absurd hpdd (hpd t)
  | raw bs =>
    simp [process_cancel, next_account_info, assert_signer, hsig, TokenAccount.unpack,
      hvd, hvinit, Escrow.unpackData, hed, Escrow.unpack, Escrow.unpack_unchecked,
      hdec, hinit, hnc, hns, assert_account_key, hk1, hk2, hk3, hk4, hnn,
      tokenTransfer, hpdd]
  | rentSysvar r2 =>
    simp [process_cancel, next_account_info, assert_signer, hsig, TokenAccount.unpack,
      hvd, hvinit, Escrow.unpackData, hed, Escrow.unpack, Escrow.unpack_unchecked,
      hdec, hinit, hnc, hns, assert_account_key, hk1, hk2, hk3, hk4, hnn,
      tokenTransfer, hpdd]

/-- C6: Lifecycle invariants preserved by every operation. Init (on either
a native or a non-native vault) only writes a record with initialized=true,
settled=canceled=false and fee <= amount. A successful Settle requires the
prior record to be open (settled=false and canceled=false) and writes
exactly that record with is_settled flipped to true, preserving every
other field (hence fee <= amount for the record's lifetime and initialized
never resets); Cancel is symmetric with is_canceled; the two flags are
therefore mutually exclusive and each transition can fire at most once.
These hold for both the native and the token branch, with no assumption on
the shape of the payee/fee/payer token accounts' data. A successful Close
requires a terminal record and destroys it by zeroing the account's data
and balance. -/
theorem lifecycle_invariants_preserved (pid : Pubkey) :
    (∀ (amount fee : Nat) (e0 : Escrow) (bytes : List Nat) (r : Rent)
        (vt : TokenAccount)
        (payer vaultT auth esc payerT payeeT feeT rentA tp : AccountInfo)
        (rest : List AccountInfo) (eff : InitEffects),
      payer.isSigner = true → vaultT.owner = splTokenId →
      vaultT.data = AccountData.token vt → vt.isInitialized = true →
      vt.amount = amount → auth.isSigner = true →
      initTokenAccountChecks vt payer payerT payeeT feeT →
      rentA.data = AccountData.rentSysvar r →
      esc.data = AccountData.raw bytes →
      r.isExempt esc.lamports bytes.length = true →
      Escrow.unpack_from_slice bytes = Except.ok e0 → e0.is_initialized = false →
      tp.key = splTokenId →
      process_init_escrow
        (payer :: vaultT :: auth :: esc :: payerT :: payeeT :: feeT :: rentA :: tp :: rest)
        amount fee pid = Except.ok eff →
      eff.record.is_initialized = true ∧ eff.record.is_settled = false ∧
        eff.record.is_canceled = false ∧ eff.record.fee ≤ eff.record.amount) ∧
    (∀ (e : Escrow) (bytes : List Nat) (vt : TokenAccount)
        (auth payee feeT vaultT esc fp tp vp : AccountInfo)
        (rest : List AccountInfo) (eff : SettleEffects),
      auth.isSigner = true → vaultT.owner = splTokenId →
      vaultT.data = AccountData.token vt → vt.isInitialized = true →
      esc.data = AccountData.raw bytes →
      Escrow.unpack_from_slice bytes = Except.ok e → e.is_initialized = true →
      auth.key = e.authority → payee.key = e.payee_token →
      feeT.key = e.fee_token → vaultT.key = e.vault_token →
      tp.key = splTokenId → vp.key = (find_program_authority pid).1 →
      process_settlement
        (auth :: payee :: feeT :: vaultT :: esc :: fp :: tp :: vp :: rest) pid =
        Except.ok eff →
      e.is_settled = false ∧ e.is_canceled = false ∧
        eff.record = { e with is_settled := true }) ∧
    (∀ (e : Escrow) (bytes : List Nat) (vt : TokenAccount)
        (auth esc payerT fp vaultT tpX vp : AccountInfo)
        (rest : List AccountInfo) (eff : CancelEffects),
      auth.isSigner = true →
      vaultT.data = AccountData.token vt → vt.isInitialized = true →
      esc.data = AccountData.raw bytes →
      Escrow.unpack_from_slice bytes = Except.ok e → e.is_initialized = true →
      payerT.key = e.payer_token → auth.key = e.authority →
      vaultT.key = e.vault_token → vp.key = (find_program_authority pid).1 →
      process_cancel (auth :: esc :: payerT :: fp :: vaultT :: tpX :: vp :: rest)
        pid = Except.ok eff →
      e.is_settled = false ∧ e.is_canceled = false ∧
        eff.record = { e with is_canceled := true }) ∧
    (∀ (e : Escrow) (bytes : List Nat) (auth esc fp : AccountInfo)
        (rest : List AccountInfo) (eff : CloseEffects),
      auth.isSigner = true → esc.owner = pid → esc.data = AccountData.raw bytes →
      Escrow.unpack_from_slice bytes = Except.ok e → e.is_initialized = true →
      process_close (auth :: esc :: fp :: rest) pid = Except.ok eff →
      (e.is_settled = true ∨ e.is_canceled = true) ∧
        eff.escrowInfo.data = AccountData.raw [] ∧ eff.escrowInfo.lamports = 0) := by
  refine ⟨?_, ?_, ?_, ?_⟩
  · intro amount fee e0 bytes r vt payer vaultT auth esc payerT payeeT feeT rentA tp
      rest eff hsigP hownV hvd hvinit hamt hsigA hbr hrd hed hre hdec0 hinit0 hk
      heff
    by_cases hfee : fee > amount
    · rw [init_eval_fee_overflow pid amount fee e0 bytes r vt payer vaultT auth esc
        payerT payeeT feeT rentA tp rest hsigP hownV hvd hvinit hamt hsigA hbr
        hrd hed hre hdec0 hinit0 hfee] at heff
      simp at heff
    · rw [init_eval_ok pid amount fee e0 bytes r vt payer vaultT auth esc payerT
        payeeT feeT rentA tp rest hsigP hownV hvd hvinit hamt hsigA hbr hrd hed
        hre hdec0 hinit0 hfee hk] at heff
      simp only [Except.ok.injEq] at heff
      subst heff
      refine ⟨rfl, rfl, rfl, ?_⟩
      show fee ≤ amount
      omega
  · intro e bytes vt auth payee feeT vaultT esc fp tp vp rest eff hsig hownV hvd
      hvinit hed hdec hinit hk1 hk2 hk3 hk4 hk5 hk6 heff
    cases hc : e.is_canceled with
    | true =>
      rw [settle_eval_canceled pid e bytes vt auth payee feeT vaultT esc
        (fp :: tp :: vp :: rest) hsig hownV hvd hvinit hed hdec hinit hc] at heff
      simp at heff
    | false =>
    cases hs : e.is_settled with
    | true =>
      rw [settle_eval_settled pid e bytes vt auth payee feeT vaultT esc
        (fp :: tp :: vp :: rest) hsig hownV hvd hvinit hed hdec hinit hc hs] at heff
      simp at heff
    | false =>
    by_cases hfee : e.fee > vt.amount
    · rw [settle_eval_fee_overflow pid e bytes vt auth payee feeT vaultT esc fp tp vp
        rest hsig hownV hvd hvinit hed hdec hinit hc hs hk1 hk2 hk3 hk4 hk5 hk6
        hfee] at heff
      simp at heff
    · have hfee' : e.fee ≤ vt.amount := by omega
      cases hnat : vt.isNative with
      | true =>
        by_cases hfp : 0 < e.fee
        · by_cases hc1 : vt.amount - e.fee ≤ esc.lamports + vaultT.lamports
          · by_cases hc2 : payee.lamports + (vt.amount - e.fee) ≤ u64Max
            · by_cases hc3 :
                  e.fee ≤ esc.lamports + vaultT.lamports - (vt.amount - e.fee)
              · by_cases hc4 : feeT.lamports + e.fee ≤ u64Max
                · rw [settle_eval_native_ok_fee pid e bytes vt auth payee feeT vaultT
                    esc fp tp vp rest hsig hownV hvd hvinit hed hdec hinit hc hs hk1
                    hk2 hk3 hk4 hk5 hk6 hfee' hnat hfp hc1 hc2 hc3 hc4] at heff
                  simp only [Except.ok.injEq] at heff
                  subst heff
                  exact ⟨rfl, rfl, by simp [hc, hs]⟩
                · rw [settle_eval_native_overflow pid e bytes vt auth payee feeT
                    vaultT esc fp tp vp rest hsig hownV hvd hvinit hed hdec hinit hc
                    hs hk1 hk2 hk3 hk4 hk5 hk6 hfee' hnat
                    (Or.inr (Or.inr (Or.inr ⟨hc1, hc2, hfp, hc3, hc4⟩)))] at heff
                  simp at heff
              · rw [settle_eval_native_overflow pid e bytes vt auth payee feeT vaultT
                  esc fp tp vp rest hsig hownV hvd hvinit hed hdec hinit hc hs hk1
                  hk2 hk3 hk4 hk5 hk6 hfee' hnat
                  (Or.inr (Or.inr (Or.inl ⟨hc1, hc2, hfp, hc3⟩)))] at heff
                simp at heff
            · rw [settle_eval_native_overflow pid e bytes vt auth payee feeT vaultT
                esc fp tp vp rest hsig hownV hvd hvinit hed hdec hinit hc hs hk1 hk2
                hk3 hk4 hk5 hk6 hfee' hnat (Or.inr (Or.inl ⟨hc1, hc2⟩))] at heff
              simp at heff
          · rw [settle_eval_native_overflow pid e bytes vt auth payee feeT vaultT esc
              fp tp vp rest hsig hownV hvd hvinit hed hdec hinit hc hs hk1 hk2 hk3
              hk4 hk5 hk6 hfee' hnat (Or.inl hc1)] at heff
            simp at heff
        · have hf0 : e.fee = 0 := by omega
          by_cases hc1 : vt.amount ≤ esc.lamports + vaultT.lamports
          · by_cases hc2 : payee.lamports + vt.amount ≤ u64Max
            · rw [settle_eval_native_ok_nofee pid e bytes vt auth payee feeT vaultT
                esc fp tp vp rest hsig hownV hvd hvinit hed hdec hinit hc hs hk1 hk2
                hk3 hk4 hk5 hk6 hf0 hnat hc1 hc2] at heff
              simp only [Except.ok.injEq] at heff
              subst heff
              exact ⟨rfl, rfl, by simp [hc, hs]⟩
            · rw [settle_eval_native_overflow pid e bytes vt auth payee feeT vaultT
                esc fp tp vp rest hsig hownV hvd hvinit hed hdec hinit hc hs hk1 hk2
                hk3 hk4 hk5 hk6 hfee' hnat
                (Or.inr (Or.inl ⟨by omega, by omega⟩))] at heff
              simp at heff
          · rw [settle_eval_native_overflow pid e bytes vt auth payee feeT vaultT esc
              fp tp vp rest hsig hownV hvd hvinit hed hdec hinit hc hs hk1 hk2 hk3
              hk4 hk5 hk6 hfee' hnat (Or.inl (by omega))] at heff
            simp at heff
      | false =>
        cases hpdd : payee.data with
        | raw bs =>
          rw [settle_eval_token_badpayee pid e bytes vt auth payee feeT vaultT esc fp
            tp vp rest hsig hownV hvd hvinit hed hdec hinit hc hs hk1 hk2 hk3 hk4 hk5
            hk6 hfee' hnat (by simp [hpdd])] at heff
          simp at heff
        | rentSysvar r2 =>
          rw [settle_eval_token_badpayee pid e bytes vt auth payee feeT vaultT esc fp
            tp vp rest hsig hownV hvd hvinit hed hdec hinit hc hs hk1 hk2 hk3 hk4 hk5
            hk6 hfee' hnat (by simp [hpdd])] at heff
          simp at heff
        | token pt =>
          by_cases hfp : 0 < e.fee
          · cases hfdd : feeT.data with
            | raw bs =>
              rw [settle_eval_token_badfee pid e bytes vt pt auth payee feeT vaultT
                esc fp tp vp rest hsig hownV hvd hvinit hed hdec hinit hc hs hk1 hk2
                hk3 hk4 hk5 hk6 hfee' hnat hfp hpdd (by simp [hfdd])] at heff
              simp at heff
            | rentSysvar r2 =>
              rw [settle_eval_token_badfee pid e bytes vt pt auth payee feeT vaultT
                esc fp tp vp rest hsig hownV hvd hvinit hed hdec hinit hc hs hk1 hk2
                hk3 hk4 hk5 hk6 hfee' hnat hfp hpdd (by simp [hfdd])] at heff
              simp at heff
            | token ft =>
              rw [settle_eval_token_ok_fee pid e bytes vt pt ft auth payee feeT
                vaultT esc fp tp vp rest hsig hownV hvd hvinit hed hdec hinit hc hs
                hk1 hk2 hk3 hk4 hk5 hk6 hfee' hnat hfp hpdd hfdd] at heff
              simp only [Except.ok.injEq] at heff
              subst heff
              exact ⟨rfl, rfl, by simp [hc, hs]⟩
          · have hf0 : e.fee = 0 := by omega
            rw [settle_eval_token_ok_nofee pid e bytes vt pt auth payee feeT vaultT
              esc fp tp vp rest hsig hownV hvd hvinit hed hdec hinit hc hs hk1 hk2
              hk3 hk4 hk5 hk6 hf0 hnat hpdd] at heff
            simp only [Except.ok.injEq] at heff
            subst heff
            exact ⟨rfl, rfl, by simp [hc, hs]⟩
  · intro e bytes vt auth esc payerT fp vaultT tpX vp rest eff hsig hvd hvinit hed
      hdec hinit hk1 hk2 hk3 hk4 heff
    cases hc : e.is_canceled with
    | true =>
      rw [cancel_eval_canceled pid e bytes vt auth esc payerT fp vaultT
        (tpX :: vp :: rest) hsig hvd hvinit hed hdec hinit hc] at heff
      simp at heff
    | false =>
    cases hs : e.is_settled with
    | true =>
      rw [cancel_eval_settled pid e bytes vt auth esc payerT fp vaultT
        (tpX :: vp :: rest) hsig hvd hvinit hed hdec hinit hc hs] at heff
      simp at heff
    | false =>
    cases hnat : vt.isNative with
    | true =>
      by_cases hc1 : vt.amount ≤ esc.lamports + vaultT.lamports
      · by_cases hc2 : payerT.lamports + vt.amount ≤ u64Max
        · rw [cancel_eval_native_ok pid e bytes vt auth esc payerT fp vaultT tpX vp
            rest hsig hvd hvinit hed hdec hinit hc hs hk1 hk2 hk3 hk4 hnat hc1
            hc2] at heff
          simp only [Except.ok.injEq] at heff
          subst heff
          exact ⟨rfl, rfl, by simp [hc, hs]⟩
        · rw [cancel_eval_native_overflow pid e bytes vt auth esc payerT fp vaultT
            tpX vp rest hsig hvd hvinit hed hdec hinit hc hs hk1 hk2 hk3 hk4 hnat
            (Or.inr ⟨hc1, hc2⟩)] at heff
          simp at heff
      · rw [cancel_eval_native_overflow pid e bytes vt auth esc payerT fp vaultT tpX
          vp rest hsig hvd hvinit hed hdec hinit hc hs hk1 hk2 hk3 hk4 hnat
          (Or.inl hc1)] at heff
        simp at heff
    | false =>
      cases hpdd : payerT.data with
      | raw bs =>
        rw [cancel_eval_token_badpayer pid e bytes vt auth esc payerT fp vaultT tpX
          vp rest hsig hvd hvinit hed hdec hinit hc hs hk1 hk2 hk3 hk4 hnat
          (by simp [hpdd])] at heff
        simp at heff
      | rentSysvar r2 =>
        rw [cancel_eval_token_badpayer pid e bytes vt auth esc payerT fp vaultT tpX
          vp rest hsig hvd hvinit hed hdec hinit hc hs hk1 hk2 hk3 hk4 hnat
          (by simp [hpdd])] at heff
        simp at heff
      | token pt =>
        rw [cancel_eval_token_ok pid e bytes vt pt auth esc payerT fp vaultT tpX vp
          rest hsig hvd hvinit hed hdec hinit hc hs hk1 hk2 hk3 hk4 hnat hpdd] at heff
        simp only [Except.ok.injEq] at heff
        subst heff
        exact ⟨rfl, rfl, by simp [hc, hs]⟩
  · intro e bytes auth esc fp rest eff hsig hown hed hdec hinit heff
    by_cases hA : e.authority = auth.key
    · cases hs : e.is_settled with
      | true =>
        by_cases hlam : fp.lamports + esc.lamports ≤ u64Max
        · rw [close_eval_ok pid e bytes auth esc fp rest hsig hown hed hdec hinit hA
            (Or.inl hs) hlam] at heff
          simp only [Except.ok.injEq] at heff
          subst heff
          exact ⟨Or.inl rfl, rfl, rfl⟩
        · rw [close_eval_overflow pid e bytes auth esc fp rest hsig hown hed hdec
            hinit hA (Or.inl hs) hlam] at heff
          simp at heff
      | false =>
        cases hcc : e.is_canceled with
        | true =>
          by_cases hlam : fp.lamports + esc.lamports ≤ u64Max
          · rw [close_eval_ok pid e bytes auth esc fp rest hsig hown hed hdec hinit
              hA (Or.inr hcc) hlam] at heff
            simp only [Except.ok.injEq] at heff
            subst heff
            exact ⟨Or.inr rfl, rfl, rfl⟩
          · rw [close_eval_overflow pid e bytes auth esc fp rest hsig hown hed hdec
              hinit hA (Or.inr hcc) hlam] at heff
            simp at heff
        | false =>
          rw [close_eval_not_terminal pid e bytes auth esc fp rest hsig hown hed hdec
            hinit hA hs hcc] at heff
          simp at heff
    · rw [close_eval_bad_authority pid e bytes auth esc fp rest hsig hown hed hdec
        hinit hA] at heff
      simp at heff

/-- Fixture settlement effects of the native Settle scenario: the payee
gains 950 (= 1000 - 50) lamports, the fee recipient gains 50, the vault is
closed, and the record is marked settled. -/
def wSettleEff : SettleEffects :=
  { payeeTokenInfo := { wPayee with
      lamports := wPayee.lamports + (wVaultNative.amount - wE.fee) },
    feeTokenInfo := { wFee with lamports := wFee.lamports + wE.fee },
    vaultTokenInfo := { wVaultTok with lamports := 0, data := AccountData.raw [] },
    escrowInfo := { wEsc with
      lamports := wEsc.lamports + wVaultTok.lamports - (wVaultNative.amount - wE.fee)
        - wE.fee,
      data := AccountData.raw (Escrow.pack_into_slice { wE with is_settled := true }) },
    feePayerInfo := wFeePayer,
    record := { wE with is_settled := true } }

theorem lifecycle_invariants_preserved_witness :
    (wE.is_settled = false ∧ wE.is_canceled = false ∧
      wSettleEff.record = { wE with is_settled := true }) ∧
    ((wESettled.is_settled = true ∨ wESettled.is_canceled = true) ∧
      ({ escrowInfo := { wEscSettled with lamports := 0, data := AccountData.raw [] },
         feePayerInfo := { wFeePayer with
           lamports := wFeePayer.lamports + wEscSettled.lamports } } :
         CloseEffects).escrowInfo.data = AccountData.raw [] ∧
      ({ escrowInfo := { wEscSettled with lamports := 0, data := AccountData.raw [] },
         feePayerInfo := { wFeePayer with
           lamports := wFeePayer.lamports + wEscSettled.lamports } } :
         CloseEffects).escrowInfo.lamports = 0) :=
  ⟨(lifecycle_invariants_preserved wPid).2.1 wE wBytes wVaultNative wAuth wPayee wFee
      wVaultTok wEsc wFeePayer wTokProg wVaultPda [] wSettleEff rfl rfl rfl rfl rfl
      rfl rfl rfl rfl rfl rfl rfl rfl
      (settle_eval_native_ok_fee wPid wE wBytes wVaultNative wAuth wPayee wFee
        wVaultTok wEsc wFeePayer wTokProg wVaultPda [] rfl rfl rfl rfl rfl rfl rfl
        rfl rfl rfl rfl rfl rfl rfl rfl (by decide) rfl (by decide) (by decide)
        (by decide) (by decide) (by decide)),
    (lifecycle_invariants_preserved wPid).2.2.2 wESettled wBytesSettled wAuth
      wEscSettled wFeePayer [] _ rfl rfl rfl rfl rfl rfl⟩
